import Mathlib

/-!
# ChatbotWidget: conversation state of `chatbot/static/chatbot/js/widget.js`

A shallow embedding of the parts of the `ChatbotWidget` class that own the
session identifier, the rendered conversation, the browser-stored history
(`sessionStorage['chatbot_history']`) and the requests sent to the server.

Modelling conventions.

* A JSON value is a `Json`.  A JavaScript value that may also be `undefined`
  is an `Option Json` (`none` is `undefined`).  Numbers are integers;
  fractional numbers are outside the model.
* A text handed to `JSON.parse` is represented by what `JSON.parse` makes of
  it (`Text`): the empty string, a text that does not parse, or the parsed
  value.  `JSON.stringify v` is the text `Text.json v`.
* The DOM is reduced to the value of `#chatbot-input` and the children of
  `#chatbot-messages`; either element may be absent, as the source guards.
  A rendered message is recorded by the arguments `addMessage` received.
  The buttons under the parent of a clicked feedback button are a
  `FeedbackBlock`, a state of its own next to the widget.
  Time labels, the loading indicator, scrolling, the theme and the welcome
  bubble are not part of the state.
* The clock (`new Date().toISOString()`), the random source, the outcome of
  `fetch` and the parts of the document `getCsrfToken` reads (`Page`) are
  inputs of the functions that consume them.
* A statement that can throw is an `Except JsErr _`; each `try`/`catch` of the
  source is a `match` on it.  The widget methods themselves never throw: every
  throwing statement of theirs is inside a `try`.
-/

namespace ChatbotWidget

/-! ## Values -/

/-- JSON values, as `JSON.parse` and `response.json()` produce them. -/
inductive Json where
  | null
  | bool (b : Bool)
  | num (n : Int)
  | str (s : String)
  | arr (items : List Json)
  | obj (fields : List (String × Json))

/-- Exceptions the modelled statements can raise. -/
inductive JsErr where
  | parseError
  | typeError
  | httpError (status : Nat)
  | networkError
  | storageError
  deriving DecidableEq

/-- JavaScript truthiness (`if (v)`, `!v`, `v || d`). -/
def truthy : Option Json → Bool
  | none => false
  | some .null => false
  | some (.bool b) => b
  | some (.num n) => n != 0
  | some (.str s) => s != ""
  | some (.arr _) => true
  | some (.obj _) => true

/-- Number of UTF-16 code units of a string: the `length` property. -/
def utf16Length (s : String) : Nat :=
  (s.data.map (fun c => if c.toNat < 65536 then 1 else 2)).sum

/-- Own-property lookup in the field list of a parsed object. -/
def lookup (key : String) : List (String × Json) → Option Json
  | [] => none
  | (k, v) :: rest => if k = key then some v else lookup key rest

/-- Property read `v.key` on a value that is not `null`, for the property
names the widget reads (`length` and the JSON field names): `undefined`
when the value has no such property. -/
def prop (v : Json) (key : String) : Option Json :=
  match v with
  | .obj fields => lookup key fields
  | .arr items => if key = "length" then some (.num items.length) else none
  | .str s => if key = "length" then some (.num (utf16Length s)) else none
  | _ => none

/-- Property read `v.key`: a `TypeError` on `null`. -/
def getProp (v : Json) (key : String) : Except JsErr (Option Json) :=
  match v with
  | .null => .error .typeError
  | _ => .ok (prop v key)

/-- Strict comparison `v === 0`. -/
def isZero : Option Json → Bool
  | some (.num n) => n == 0
  | _ => false

/-- The platform part of `v > 0`: ToPrimitive and ToNumber of a string, an
array or an object, which may throw.  It is an input of the model. -/
abbrev Coerce := Json → Except JsErr Bool

/-- Relational comparison `v > 0`. -/
def gtZero (coerce : Coerce) : Option Json → Except JsErr Bool
  | none => .ok false
  | some .null => .ok false
  | some (.bool b) => .ok b
  | some (.num n) => .ok (decide (0 < n))
  | some v => coerce v

/-- An object literal handed to `JSON.stringify`: a field whose value is
`undefined` is left out of the text. -/
def mkObject (fields : List (String × Option Json)) : Json :=
  .obj (fields.filterMap (fun kv => kv.2.map (fun v => (kv.1, v))))

/-! ## Strings -/

/-- White space and line terminators, as `String.prototype.trim` strips them. -/
def isJsWhitespace (c : Char) : Bool :=
  let n := c.toNat
  n == 9 || n == 10 || n == 11 || n == 12 || n == 13 || n == 32 || n == 160 ||
  n == 5760 || (8192 ≤ n && n ≤ 8202) || n == 8232 || n == 8233 || n == 8239 ||
  n == 8287 || n == 12288 || n == 65279

/-- The call `s.trim()`. -/
def jsTrim (s : String) : String :=
  ⟨((s.data.dropWhile isJsWhitespace).reverse.dropWhile isJsWhitespace).reverse⟩

/-! ## Browser storage -/

/-- A string handed to `JSON.parse`, by what the parse makes of it. -/
inductive Text where
  | empty
  | malformed
  | json (v : Json)

/-- The call `JSON.parse(text)`. -/
def jsonParse : Text → Except JsErr Json
  | .json v => .ok v
  | _ => .error .parseError

/-- The `sessionStorage` entry `chatbot_history` (`none` when the key is
missing) and whether the storage calls throw (storage disabled, quota
exceeded). -/
structure Storage where
  item : Option Text
  getThrows : Bool
  setThrows : Bool
  removeThrows : Bool

/-- The call `sessionStorage.getItem('chatbot_history')`. -/
def getItem (st : Storage) : Except JsErr (Option Text) :=
  if st.getThrows then .error .storageError else .ok st.item

/-- The call `sessionStorage.setItem('chatbot_history', text)`. -/
def setItem (st : Storage) (text : Text) : Except JsErr Storage :=
  if st.setThrows then .error .storageError else .ok { st with item := some text }

/-- The call `sessionStorage.removeItem('chatbot_history')`. -/
def removeItem (st : Storage) : Except JsErr Storage :=
  if st.removeThrows then .error .storageError else .ok { st with item := none }

/-- The expression `item || '[]'`: `null` and the empty string are falsy. -/
def orEmptyArray : Option Text → Text
  | none => .json (.arr [])
  | some .empty => .json (.arr [])
  | some t => t

/-- The expression `JSON.parse(sessionStorage.getItem('chatbot_history') || '[]')`
shared by `saveToSessionStorage` and `loadSessionHistory`. -/
def readHistory (st : Storage) : Except JsErr Json :=
  match getItem st with
  | .error e => .error e
  | .ok item => jsonParse (orEmptyArray item)

/-! ## Document and widget state -/

/-- Who a rendered message is from. -/
inductive Sender where
  | user
  | bot
  deriving DecidableEq

/-- Children of `#chatbot-messages`. -/
inductive Node where
  /-- The static welcome message, a `.chatbot-message.bot-message`. -/
  | welcome
  /-- The `.chatbot-suggestions` block. -/
  | suggestions
  /-- A message appended by `addMessage`: the text it was given, the sender,
  and the interaction id of its feedback buttons when it has them. -/
  | message (text : Option Json) (sender : Sender) (feedback : Option Json)
  /-- A message appended by `showTemporaryMessage`. -/
  | temporary (text : String) (kind : String)

/-- Selector `.bot-message`. -/
def Node.isBotMessage : Node → Bool
  | .welcome => true
  | .message _ .bot _ => true
  | .temporary _ _ => true
  | _ => false

/-- Selector `.chatbot-suggestions`. -/
def Node.isSuggestions : Node → Bool
  | .suggestions => true
  | _ => false

/-- A `fetch` call: `this.apiBase`, the endpoint appended to it, and the
value serialised into the body. -/
structure Request where
  base : Json
  endpoint : String
  body : Json

/-- State of the widget and of the page around it. -/
structure Widget where
  sessionId : Option Json
  apiBase : Json
  currentInteractionId : Option Json
  /-- Value of `#chatbot-input`; `none` when the element is absent. -/
  input : Option String
  /-- Children of `#chatbot-messages`; `none` when the element is absent. -/
  messages : Option (List Node)
  storage : Storage
  /-- Calls of `fetch`, oldest first. -/
  requests : List Request
  /-- Lines written with `console.error`, oldest first. -/
  console : List String

/-- An error line written with `console.error`. -/
def logError (w : Widget) (line : String) : Widget :=
  { w with console := w.console ++ [line] }

/-! ## Session identifier -/

/-- The digit `v.toString(16)` of a value below sixteen. -/
def hexDigit (v : Nat) : Char :=
  if v < 10 then Char.ofNat (48 + v) else Char.ofNat (87 + v)

/-- The pattern `generateSessionId` fills in. -/
def sessionIdTemplate : List Char := "xxxxxxxx-xxxx-4xxx-yxxx-xxxxxxxxxxxx".data

/-- The `replace(/[xy]/g, callback)` pass over the pattern.  The random source
is the sequence `rnd`; `rnd k % 16` is the value of `Math.random() * 16 | 0` at
the `k`-th call of the callback, an integer from 0 to 15. -/
def replaceXY (rnd : Nat → Nat) : Nat → List Char → List Char
  | _, [] => []
  | k, c :: cs =>
    if c = 'x' ∨ c = 'y' then
      let r := rnd k % 16
      let v := if c = 'x' then r else ((r &&& 3) ||| 8)
      hexDigit v :: replaceXY rnd (k + 1) cs
    else
      c :: replaceXY rnd k cs

/-- The method `generateSessionId`. -/
def generateSessionId (rnd : Nat → Nat) : String :=
  ⟨replaceXY rnd 0 sessionIdTemplate⟩

/-! ## Rendering -/

/-- The method `addMessage(text, sender, interactionId = null)`. -/
def addMessage (w : Widget) (text : Option Json) (sender : Sender)
    (interactionId : Option Json) : Widget :=
  match w.messages with
  | none => w
  | some children =>
    let feedback := if sender = .bot ∧ truthy interactionId = true then interactionId else none
    let children := children ++ [Node.message text sender feedback]
    let children := if sender = .user then children.eraseP Node.isSuggestions else children
    { w with messages := some children }

/-- The `history.forEach` loop of `displayHistory`: it stops at the first
item whose property read throws, with the messages rendered so far kept. -/
def displayItems (w : Widget) : List Json → Widget × Option JsErr
  | [] => (w, none)
  | item :: rest =>
    match getProp item "pregunta" with
    | .error e => (w, some e)
    | .ok pregunta =>
      let w1 := addMessage w pregunta .user none
      let w2 := addMessage w1 (prop item "respuesta") .bot (prop item "interaction_id")
      displayItems w2 rest

/-- The removal of the welcome message and of the suggestions at the head of
`displayHistory`, guarded by `messagesContainer && history.length > 0`. -/
def removeWelcome (coerce : Coerce) (w : Widget) (length : Option Json) : Except JsErr Widget :=
  match w.messages with
  | none => .ok w
  | some children =>
    match gtZero coerce length with
    | .error e => .error e
    | .ok true =>
      .ok { w with messages := some ((children.eraseP Node.isBotMessage).eraseP Node.isSuggestions) }
    | .ok false => .ok w

/-- The method `displayHistory(history)`: the state it leaves and the exception
it throws, if any. -/
def displayHistory (coerce : Coerce) (w : Widget) (history : Option Json) :
    Widget × Option JsErr :=
  match history with
  | none => (w, none)
  | some h =>
    if truthy history = false then (w, none)
    else if isZero (prop h "length") = true then (w, none)
    else
      match removeWelcome coerce w (prop h "length") with
      | .error e => (w, some e)
      | .ok w1 =>
        match h with
        | .arr items => displayItems w1 items
        | _ => (w1, some .typeError)

/-! ## Stored history -/

/-- The object pushed by `saveToSessionStorage`. -/
def historyEntry (question : String) (response interactionId : Option Json)
    (now : String) : Json :=
  mkObject [("pregunta", some (.str question)), ("respuesta", response),
    ("timestamp", some (.str now)), ("interaction_id", interactionId)]

/-- The `history.push(entry)` and `history.splice(0, history.length - 50)`
steps: a `TypeError` when the parsed value is not an array. -/
def pushAndTrim (history : Json) (entry : Json) : Except JsErr Json :=
  match history with
  | .arr items =>
    let items := items ++ [entry]
    .ok (.arr (if items.length > 50 then items.drop (items.length - 50) else items))
  | _ => .error .typeError

/-- The body of the `try` of `saveToSessionStorage`. -/
def saveToSessionStorageTry (st : Storage) (entry : Json) : Except JsErr Storage :=
  match readHistory st with
  | .error e => .error e
  | .ok history =>
    match pushAndTrim history entry with
    | .error e => .error e
    | .ok history => setItem st (.json history)

/-- The method `saveToSessionStorage(question, response, interactionId)`; `now`
is `new Date().toISOString()`. -/
def saveToSessionStorage (w : Widget) (question : String)
    (response interactionId : Option Json) (now : String) : Widget :=
  match saveToSessionStorageTry w.storage (historyEntry question response interactionId now) with
  | .ok st => { w with storage := st }
  | .error _ => logError w "Error saving to session storage:"

/-- The method `loadSessionHistory`. -/
def loadSessionHistory (coerce : Coerce) (w : Widget) : Widget :=
  match readHistory w.storage with
  | .error _ => logError w "Error loading session history:"
  | .ok history =>
    match displayHistory coerce w (some history) with
    | (w1, none) => w1
    | (w1, some _) => logError w1 "Error loading session history:"

/-! ## Initialisation -/

/-- The expression `v || d`. -/
def orDefault (v : Option Json) (d : Json) : Json :=
  match v with
  | some x => if truthy v = true then x else d
  | none => d

/-- The body of the `try` of `loadConfig`, on the text of `#chatbot-data`. -/
def loadConfigTry (coerce : Coerce) (w : Widget) (text : Text) : Widget × Option JsErr :=
  match jsonParse text with
  | .error e => (w, some e)
  | .ok config =>
    match getProp config "session_id" with
    | .error e => (w, some e)
    | .ok sessionId =>
      let w1 := { w with sessionId := sessionId,
                         apiBase := orDefault (prop config "api_base") (.str "/chatbot/") }
      match prop config "history" with
      | none => (w1, none)
      | some history =>
        if truthy (some history) = false then (w1, none)
        else
          match gtZero coerce (prop history "length") with
          | .error e => (w1, some e)
          | .ok false => (w1, none)
          | .ok true => displayHistory coerce w1 (some history)

/-- The method `loadConfig`; `configElement` is the text of `#chatbot-data`,
`none` when the element is absent. -/
def loadConfig (coerce : Coerce) (w : Widget) (configElement : Option Text)
    (rnd : Nat → Nat) : Widget :=
  let w1 :=
    match configElement with
    | none => w
    | some text =>
      match loadConfigTry coerce w text with
      | (w1, none) => w1
      | (w1, some _) => logError w1 "Error loading chatbot config:"
  if truthy w1.sessionId = false then
    { w1 with sessionId := some (.str (generateSessionId rnd)) }
  else w1

/-- The method `init`: `loadConfig`, then `loadSessionHistory`.  The other
calls (`bindEvents`, `setupTextareaResize`, the theme and the welcome bubble)
do not touch the modelled state. -/
def init (coerce : Coerce) (w : Widget) (configElement : Option Text)
    (rnd : Nat → Nat) : Widget :=
  loadSessionHistory coerce (loadConfig coerce w configElement rnd)

/-- The fields the constructor sets before `init`, on a page with the given
input value, messages and storage. -/
def create (input : Option String) (messages : Option (List Node)) (storage : Storage) :
    Widget :=
  { sessionId := some .null, apiBase := .str "/chatbot/", currentInteractionId := some .null,
    input := input, messages := messages, storage := storage, requests := [], console := [] }

/-! ## Asking a question -/

/-- How a `fetch` settles: rejected (network error), or resolved with a
status and a body; `body = none` when `response.json()` rejects. -/
inductive FetchOutcome where
  | rejected
  | response (status : Nat) (body : Option Json)

/-- The part of `callAPI(endpoint, data)` up to the `fetch` call. -/
def callAPI (w : Widget) (endpoint : String) (data : Json) : Widget :=
  { w with requests := w.requests ++ [{ base := w.apiBase, endpoint := endpoint, body := data }] }

/-- The part of `callAPI` after `await fetch(...)`: the value it returns or
the exception it throws. -/
def callAPIResult : FetchOutcome → Except JsErr Json
  | .rejected => .error .networkError
  | .response status body =>
    if 200 ≤ status ∧ status ≤ 299 then
      match body with
      | some v => .ok v
      | none => .error .parseError
    else .error (.httpError status)

/-- The method `sendMessage` up to `await this.callAPI(...)`: the state, and
the trimmed message when a request was sent. -/
def sendMessageBegin (w : Widget) : Widget × Option String :=
  match w.input with
  | none => (w, none)
  | some value =>
    let message := jsTrim value
    if message = "" then (w, none)
    else
      let w1 := { w with input := some "" }
      let w2 := addMessage w1 (some (.str message)) .user none
      let w3 := callAPI w2 "ask/"
        (mkObject [("pregunta", some (.str message)), ("session_id", w2.sessionId)])
      (w3, some message)

/-- The text shown when the server answers with a falsy `success`. -/
def serverErrorText : Json := .str "Lo siento, ocurrió un error. Por favor, intenta de nuevo."

/-- The text shown when the request fails. -/
def connectionErrorText : Json :=
  .str "Lo siento, no pude conectar con el servidor. Por favor, verifica tu conexión e intenta de nuevo."

/-- The rest of the `try` of `sendMessage`, once the request has settled. -/
def sendMessageTry (w : Widget) (message : String) (outcome : FetchOutcome) (now : String) :
    Widget × Option JsErr :=
  match callAPIResult outcome with
  | .error e => (w, some e)
  | .ok response =>
    match getProp response "success" with
    | .error e => (w, some e)
    | .ok success =>
      if truthy success = true then
        let w1 := addMessage w (prop response "respuesta") .bot (prop response "interaction_id")
        let w2 := { w1 with currentInteractionId := prop response "interaction_id" }
        (saveToSessionStorage w2 message (prop response "respuesta")
          (prop response "interaction_id") now, none)
      else
        (addMessage w (some (orDefault (prop response "error") serverErrorText)) .bot none, none)

/-- The method `sendMessage` from the point where the request settles. -/
def sendMessageResume (w : Widget) (message : String) (outcome : FetchOutcome) (now : String) :
    Widget :=
  match sendMessageTry w message outcome now with
  | (w1, none) => w1
  | (w1, some _) => addMessage (logError w1 "Error sending message:") (some connectionErrorText) .bot none

/-- The method `sendMessage`, run to completion with nothing interleaved. -/
def sendMessage (w : Widget) (outcome : FetchOutcome) (now : String) : Widget :=
  match sendMessageBegin w with
  | (w1, none) => w1
  | (w1, some message) => sendMessageResume w1 message outcome now

/-! ## Clearing the conversation -/

/-- The parts of the document `getCsrfToken` reads. -/
structure Page where
  /-- The string `document.cookie`. -/
  cookie : String
  /-- The element `meta[name="csrf-token"]`: `none` when there is none, else
  its `content` attribute (`none` when the attribute is absent). -/
  metaTag : Option (Option String)
  /-- The text of `#chatbot-data`; `none` when the element is absent. -/
  configElement : Option Text

/-- The loop of `s.split(sep)` for a separator that is not empty: `skip`
counts the characters of a matched separator still to pass, `cur` holds the
current piece in reverse. -/
def jsSplitAux (sep : List Char) : Nat → List Char → List Char → List String
  | _, cur, [] => [String.mk cur.reverse]
  | skip + 1, cur, _ :: rest => jsSplitAux sep skip cur rest
  | 0, cur, c :: rest =>
    if sep.isPrefixOf (c :: rest) then
      String.mk cur.reverse :: jsSplitAux sep (sep.length - 1) [] rest
    else jsSplitAux sep 0 (c :: cur) rest

/-- The call `s.split(sep)` for a separator that is not empty. -/
def jsSplit (sep s : String) : List String :=
  jsSplitAux sep.data 0 [] s.data

/-- The expression
`document.cookie.split('; ').find(row => row.startsWith('csrftoken='))?.split('=')[1]`. -/
def cookieToken (cookie : String) : Option String :=
  match (jsSplit "; " cookie).find? (fun row => "csrftoken=".data.isPrefixOf row.data) with
  | none => none
  | some row => (jsSplit "=" row).get? 1

/-- The last fallback of `getCsrfToken`: the `csrf_token` of `#chatbot-data`,
read inside a `try` whose `catch` logs; then the empty string. -/
def csrfTokenFromConfig (w : Widget) (configElement : Option Text) : Widget × Option Json :=
  match configElement with
  | none => (w, some (.str ""))
  | some text =>
    match jsonParse text with
    | .error _ => (logError w "Error getting CSRF token from config:", some (.str ""))
    | .ok config =>
      match getProp config "csrf_token" with
      | .error _ => (logError w "Error getting CSRF token from config:", some (.str ""))
      | .ok token => (w, token)

/-- The method `getCsrfToken`: the state it leaves and the value it returns,
from the cookie, else from the meta tag, else from `#chatbot-data`.  The read
of `document.cookie` is taken not to throw. -/
def getCsrfToken (w : Widget) (page : Page) : Widget × Option Json :=
  if truthy ((cookieToken page.cookie).map Json.str) = true then
    (w, (cookieToken page.cookie).map Json.str)
  else
    match page.metaTag with
    | some (some content) => (w, some (.str content))
    | some none => (w, some .null)
    | none => csrfTokenFromConfig w page.configElement

/-- The method `clearServerHistory`: `getCsrfToken` is called for the
`X-CSRFToken` header while the arguments of `fetch` are built, then the request
is sent and not awaited.  A `Request` records no header. -/
def clearServerHistory (w : Widget) (page : Page) : Widget :=
  let w1 := (getCsrfToken w page).1
  { w1 with requests := w1.requests ++
      [{ base := w.apiBase, endpoint := "clear-history/",
         body := mkObject [("session_id", w1.sessionId)] }] }

/-- The `.catch` handler of `clearServerHistory`, run when the request settles. -/
def clearServerHistorySettled (w : Widget) : FetchOutcome → Widget
  | .rejected => logError w "Error clearing server history:"
  | .response _ _ => w

/-- The method `showTemporaryMessage(text, type)`; the removal two seconds
later is not modelled. -/
def showTemporaryMessage (w : Widget) (text : String) (kind : String) : Widget :=
  match w.messages with
  | none => w
  | some children => { w with messages := some (children ++ [Node.temporary text kind]) }

/-- The method `clearConversation`, on a page whose cookie, meta tag and
config element are `page`. -/
def clearConversation (w : Widget) (rnd : Nat → Nat) (page : Page) : Widget :=
  let w1 :=
    match w.messages with
    | none => w
    | some _ => { w with messages := some [Node.welcome, Node.suggestions] }
  let w2 :=
    match removeItem w1.storage with
    | .ok st => { w1 with storage := st }
    | .error _ => logError w1 "Error clearing session storage:"
  let w3 := clearServerHistory w2 page
  let w4 := { w3 with currentInteractionId := some .null }
  let w5 := { w4 with sessionId := some (.str (generateSessionId rnd)) }
  showTemporaryMessage w5 "Conversación limpiada. ¡Empecemos de nuevo!" "success"

/-! ## Feedback -/

/-- A `.feedback-button` element. -/
structure FeedbackButton where
  /-- Attribute `data-interaction-id`; `none` when the attribute is absent. -/
  interactionId : Option String
  /-- Attribute `data-useful`; `none` when the attribute is absent. -/
  useful : Option String
  /-- The property `textContent`. -/
  text : String
  /-- Whether the class list holds `selected`. -/
  selected : Bool
  disabled : Bool

/-- The `.feedback-button` elements under the parent of a clicked button, in
document order: those before it, the clicked one, those after it. -/
structure FeedbackBlock where
  before : List FeedbackButton
  button : FeedbackButton
  after : List FeedbackButton

/-- The result of `feedbackContainer.querySelectorAll('.feedback-button')`. -/
def FeedbackBlock.buttons (block : FeedbackBlock) : List FeedbackButton :=
  block.before ++ [block.button] ++ block.after

/-- The platform function `parseInt` on an attribute value, as the value
`JSON.stringify` writes for it: a number, or `null` for `NaN`.  It is an input
of the model. -/
abbrev ParseInt := Option String → Json

/-- The statements of the `forEach` in `handleFeedback`: class `selected`
added, `disabled` set. -/
def markUsed (b : FeedbackButton) : FeedbackButton :=
  { b with selected := true, disabled := true }

/-- The method `handleFeedback(button)` up to `await this.callAPI(...)`. -/
def handleFeedbackBegin (parseInt : ParseInt) (w : Widget) (block : FeedbackBlock) :
    Widget × Bool :=
  let interactionId := block.button.interactionId
  let wasUseful := block.button.useful == some "true"
  (callAPI w "feedback/"
    (mkObject [("interaction_id", some (parseInt interactionId)),
      ("fue_util", some (.bool wasUseful))]), wasUseful)

/-- The method `handleFeedback` from the point where the request settles: on
success every button of the block is marked and the clicked one gets the
thank-you text; a failure is caught and logged. -/
def handleFeedbackResume (w : Widget) (block : FeedbackBlock) (wasUseful : Bool)
    (outcome : FetchOutcome) : Widget × FeedbackBlock :=
  match callAPIResult outcome with
  | .error _ => (logError w "Error sending feedback:", block)
  | .ok _ =>
    (w, { before := block.before.map markUsed,
          button := { markUsed block.button with
            text := if wasUseful then "👍 ¡Gracias!" else "👎 Gracias por tu feedback" },
          after := block.after.map markUsed })

/-- The method `handleFeedback`, run to completion with nothing interleaved. -/
def handleFeedback (parseInt : ParseInt) (w : Widget) (block : FeedbackBlock)
    (outcome : FetchOutcome) : Widget × FeedbackBlock :=
  match handleFeedbackBegin parseInt w block with
  | (w1, wasUseful) => handleFeedbackResume w1 block wasUseful outcome

/-! ## Vocabulary of the statements -/

/-- Lowercase hexadecimal digits. -/
def isLowerHex (c : Char) : Bool :=
  ('0' ≤ c && c ≤ '9') || ('a' ≤ c && c ≤ 'f')

/-- The character `s[i]` of a string. -/
def charAt (s : String) (i : Nat) : Option Char := s.data.get? i

/-- The last fifty elements of a list, all of them when there are fewer. -/
def lastFifty (l : List Json) : List Json := l.drop (l.length - 50)

/-- The arguments of one `saveToSessionStorage` call and the clock reading
at that call. -/
structure Exchange where
  question : String
  response : Option Json
  interactionId : Option Json
  now : String

/-- The entry an exchange is stored as. -/
def Exchange.entry (e : Exchange) : Json :=
  historyEntry e.question e.response e.interactionId e.now

/-- Successive `saveToSessionStorage` calls, one per exchange, in order. -/
def recordAll (w : Widget) (exs : List Exchange) : Widget :=
  exs.foldl (fun w e => saveToSessionStorage w e.question e.response e.interactionId e.now) w

/-- A storage that holds no history and does not throw. -/
def emptyStorage : Storage :=
  { item := none, getThrows := false, setThrows := false, removeThrows := false }

/-- The children of `#chatbot-messages` in the initial state, the one
`clearConversation` restores: the welcome message and the suggestions. -/
def initialMessages : List Node := [Node.welcome, Node.suggestions]

/-- A just constructed widget on a page in the initial state, with the given
text typed into the input. -/
def freshWidget (input : String) : Widget :=
  create (some input) (some initialMessages) emptyStorage

/-- Two exchanges, for the examples. -/
def sampleExchanges : List Exchange :=
  [{ question := "Hola", response := some (.str "Buenas"), interactionId := some (.num 1),
     now := "2024-05-01T10:00:00.000Z" },
   { question := "Horario", response := some (.str "De 9 a 5"), interactionId := some (.num 2),
     now := "2024-05-01T10:01:00.000Z" }]

/-- The failures of the `ask/` request: the `fetch` is rejected, the status
is not 2xx, or the payload carries `success: false`. -/
def FetchOutcome.isFailure : FetchOutcome → Bool
  | .rejected => true
  | .response status body =>
    !(decide (200 ≤ status ∧ status ≤ 299)) ||
      (match body with
       | some b =>
         (match prop b "success" with
          | some (.bool false) => true
          | _ => false)
       | none => false)

/-- The children of `#chatbot-messages` after a user turn and a bot turn
have been appended by `addMessage`. -/
def afterTurns (children : List Node) (question : Option Json) (answer : Option Json)
    (feedback : Option Json) : List Node :=
  (children ++ [Node.message question .user none]).eraseP Node.isSuggestions ++
    [Node.message answer .bot feedback]

/-- The text `clearConversation` shows for two seconds. -/
def clearedNotice : Node :=
  Node.temporary "Conversación limpiada. ¡Empecemos de nuevo!" "success"

/-- What the `k`-th random value contributes to a generated identifier: its
residue modulo 16, or modulo 4 at the variant position (the sixteenth). -/
def nibble (rnd : Nat → Nat) (k : Nat) : Nat :=
  if k = 15 then rnd k % 4 else rnd k % 16

/-- The two messages `displayHistory` renders for one entry: the question as
a user turn, then the answer as a bot turn with its feedback buttons. -/
def renderEntry (item : Json) : List Node :=
  [Node.message (prop item "pregunta") .user none,
   Node.message (prop item "respuesta") .bot
     (if truthy (prop item "interaction_id") = true then prop item "interaction_id" else none)]

/-- The messages rendered for a sequence of entries, in order. -/
def renderEntries (items : List Json) : List Node :=
  items.flatMap renderEntry

/-- The children left once the first `n` suggestion blocks are removed. -/
def stripSuggestions : Nat → List Node → List Node
  | 0, c => c
  | n + 1, c => stripSuggestions n (c.eraseP Node.isSuggestions)

/-- A host configuration with one entry of history, for the examples. -/
def sampleConfig : Json :=
  .obj [("session_id", .str "s-1"),
        ("history", .arr [.obj [("pregunta", .str "A?"), ("respuesta", .str "A!"),
          ("interaction_id", .num 1)]])]

/-- A storage holding one entry, for the examples. -/
def sampleStorage : Storage :=
  { item := some (.json (.arr [.obj [("pregunta", .str "B?"), ("respuesta", .str "B!"),
      ("timestamp", .str "2024-05-01T10:00:00.000Z"), ("interaction_id", .num 2)]])),
    getThrows := false, setThrows := false, removeThrows := false }

/-- Whether a JSON value is an array. -/
def Json.isArray : Json → Bool
  | .arr _ => true
  | _ => false

/-- A stored text that is there and is not a JSON array: it does not parse,
or it parses to another kind of value. -/
def notAnArray : Option Text → Bool
  | some .malformed => true
  | some (.json v) => !v.isArray
  | _ => false

/-- The block of a freshly rendered bot message with interaction id 42, its
first button clicked. -/
def sampleBlock : FeedbackBlock :=
  { before := [],
    button := { interactionId := some "42", useful := some "true",
                text := "\n                    👍 Útil\n                ",
                selected := false, disabled := false },
    after := [{ interactionId := some "42", useful := some "false",
                text := "\n                    👎 No útil\n                ",
                selected := false, disabled := false }] }

/-- A `parseInt` that reads "42", for the examples. -/
def sampleParseInt : ParseInt
  | some "42" => .num 42
  | _ => .null

/-- Nothing was added to the children of `#chatbot-messages`: the element is
absent before and after, or the children after are among the children before,
in the same order. -/
def nothingRendered (before after : Option (List Node)) : Prop :=
  match before, after with
  | none, none => True
  | some c, some c' => c'.Sublist c
  | _, _ => False

/-- A storage whose `chatbot_history` text does not parse, and that does not
throw. -/
def malformedStorage : Storage :=
  { item := some .malformed, getThrows := false, setThrows := false, removeThrows := false }

/-- A page with no cookie, no CSRF meta tag and no config element. -/
def emptyPage : Page :=
  { cookie := "", metaTag := none, configElement := none }

/-- Whether `getCsrfToken` ends in its `catch`: neither the cookie nor a meta
tag supplies the token, and the text of `#chatbot-data` does not parse or
parses to `null`. -/
def csrfLookupFails (page : Page) : Bool :=
  !truthy ((cookieToken page.cookie).map Json.str) &&
    (match page.metaTag with
     | some _ => false
     | none =>
       (match page.configElement with
        | some .empty => true
        | some .malformed => true
        | some (.json .null) => true
        | _ => false))

/-- A page whose `#chatbot-data` text does not parse, with no cookie and no
CSRF meta tag. -/
def unparsedConfigPage : Page :=
  { cookie := "", metaTag := none, configElement := some .malformed }

/-- The lines `getCsrfToken` writes with `console.error` on a page. -/
def csrfLog (page : Page) : List String :=
  if csrfLookupFails page = true then ["Error getting CSRF token from config:"] else []

/-! # Properties -/

/-! ## Session identifier layout -/

theorem hexDigit_isLowerHex : ∀ v, v < 16 → isLowerHex (hexDigit v) = true := by
  decide

theorem hexDigit_variant : ∀ r, r < 16 →
    hexDigit ((r &&& 3) ||| 8) = '8' ∨ hexDigit ((r &&& 3) ||| 8) = '9' ∨
    hexDigit ((r &&& 3) ||| 8) = 'a' ∨ hexDigit ((r &&& 3) ||| 8) = 'b' := by
  decide

theorem generateSessionId_data (rnd : Nat → Nat) :
    (generateSessionId rnd).data =
      [hexDigit (rnd 0 % 16), hexDigit (rnd 1 % 16), hexDigit (rnd 2 % 16), hexDigit (rnd 3 % 16),
       hexDigit (rnd 4 % 16), hexDigit (rnd 5 % 16), hexDigit (rnd 6 % 16), hexDigit (rnd 7 % 16),
       '-', hexDigit (rnd 8 % 16), hexDigit (rnd 9 % 16), hexDigit (rnd 10 % 16),
       hexDigit (rnd 11 % 16),
       '-', '4', hexDigit (rnd 12 % 16), hexDigit (rnd 13 % 16), hexDigit (rnd 14 % 16),
       '-', hexDigit ((rnd 15 % 16 &&& 3) ||| 8), hexDigit (rnd 16 % 16), hexDigit (rnd 17 % 16),
       hexDigit (rnd 18 % 16),
       '-', hexDigit (rnd 19 % 16), hexDigit (rnd 20 % 16), hexDigit (rnd 21 % 16),
       hexDigit (rnd 22 % 16), hexDigit (rnd 23 % 16), hexDigit (rnd 24 % 16),
       hexDigit (rnd 25 % 16), hexDigit (rnd 26 % 16), hexDigit (rnd 27 % 16),
       hexDigit (rnd 28 % 16), hexDigit (rnd 29 % 16), hexDigit (rnd 30 % 16)] := by
  rfl

/-- C9: whatever the random source returns, `generateSessionId` yields 36
characters: `-` at indices 8, 13, 18 and 23, `4` at index 14, one of `8`, `9`,
`a`, `b` at index 19, and a lowercase hexadecimal digit everywhere else. -/
theorem generateSessionId_layout (rnd : Nat → Nat) :
    (generateSessionId rnd).length = 36 ∧ utf16Length (generateSessionId rnd) = 36 ∧
    ∀ i, i < 36 → ∃ c, charAt (generateSessionId rnd) i = some c ∧
      (if i = 8 ∨ i = 13 ∨ i = 18 ∨ i = 23 then c = '-'
       else if i = 14 then c = '4'
       else if i = 19 then c = '8' ∨ c = '9' ∨ c = 'a' ∨ c = 'b'
       else isLowerHex c = true) := by
  have hx : ∀ k, isLowerHex (hexDigit (rnd k % 16)) = true :=
    fun k => hexDigit_isLowerHex _ (Nat.mod_lt _ (by decide))
  have hy := hexDigit_variant (rnd 15 % 16) (Nat.mod_lt _ (by decide))
  refine ⟨?_, ?_, ?_⟩
  · simp [String.length, generateSessionId_data]
  · have hs : ∀ v, v < 16 → (hexDigit v).toNat < 65536 := by decide
    have hk : ∀ k, (hexDigit (rnd k % 16)).toNat < 65536 :=
      fun k => hs _ (Nat.mod_lt _ (by decide))
    have hv : (hexDigit ((rnd 15 % 16 &&& 3) ||| 8)).toNat < 65536 := by
      rcases hy with h | h | h | h <;> rw [h] <;> decide
    simp [utf16Length, generateSessionId_data, hk, hv]
  · intro i hi
    simp only [charAt, generateSessionId_data]
    interval_cases i <;> simp [hx, hy]

/-! ## The stored history is a bounded queue -/

theorem lastFifty_length_le (l : List Json) : (lastFifty l).length ≤ 50 := by
  simp only [lastFifty, List.length_drop]
  omega

theorem lastFifty_length (l : List Json) : (lastFifty l).length = min l.length 50 := by
  simp only [lastFifty, List.length_drop]
  omega

theorem lastFifty_of_length_le (l : List Json) (h : l.length ≤ 50) : lastFifty l = l := by
  have h0 : l.length - 50 = 0 := by omega
  simp [lastFifty, h0]

theorem lastFifty_append (a b : List Json) : lastFifty (lastFifty a ++ b) = lastFifty (a ++ b) := by
  have h1 : List.drop (a.length - 50) a ++ b = List.drop (a.length - 50) (a ++ b) :=
    (List.drop_append_of_le_length (Nat.sub_le _ _)).symm
  unfold lastFifty
  rw [h1, List.drop_drop]
  congr 1
  simp only [List.length_drop, List.length_append]
  omega

theorem pushAndTrim_arr (xs : List Json) (e : Json) :
    pushAndTrim (.arr xs) e = .ok (.arr (lastFifty (xs ++ [e]))) := by
  simp only [pushAndTrim]
  split_ifs with h
  · rfl
  · rw [lastFifty_of_length_le _ (by omega)]

theorem saveToSessionStorage_of_array (w : Widget) (q : String) (r i : Option Json)
    (now : String) (xs : List Json)
    (hset : w.storage.setThrows = false)
    (hread : readHistory w.storage = .ok (.arr xs)) :
    saveToSessionStorage w q r i now =
      { w with storage :=
          { w.storage with item := some (.json (.arr (lastFifty (xs ++ [historyEntry q r i now])))) } } := by
  simp [saveToSessionStorage, saveToSessionStorageTry, hread, pushAndTrim_arr, setItem, hset]

theorem readHistory_of_item (st : Storage) (v : Json) (hget : st.getThrows = false)
    (h : st.item = some (.json v)) : readHistory st = .ok v := by
  simp [readHistory, getItem, hget, h, orEmptyArray, jsonParse]

theorem recordAll_from_array (exs : List Exchange) :
    ∀ (w : Widget) (xs : List Json), w.storage.getThrows = false →
      w.storage.setThrows = false → xs.length ≤ 50 →
      readHistory w.storage = .ok (.arr xs) →
      readHistory (recordAll w exs).storage = .ok (.arr (lastFifty (xs ++ exs.map Exchange.entry))) := by
  induction exs with
  | nil =>
    intro w xs _ _ hlen hread
    simpa [recordAll, lastFifty_of_length_le _ hlen] using hread
  | cons e rest ih =>
    intro w xs hget hset _ hread
    have hstep := saveToSessionStorage_of_array w e.question e.response e.interactionId e.now xs
      hset hread
    have hrec : recordAll w (e :: rest) =
        recordAll (saveToSessionStorage w e.question e.response e.interactionId e.now) rest := rfl
    rw [hrec, hstep]
    have := ih { w with storage := { w.storage with
        item := some (.json (.arr (lastFifty (xs ++ [historyEntry e.question e.response
          e.interactionId e.now])))) } } (lastFifty (xs ++ [e.entry])) hget hset
      (lastFifty_length_le _) (readHistory_of_item _ _ hget rfl)
    rw [this, lastFifty_append]
    simp [Exchange.entry]

theorem saveToSessionStorage_flags (w : Widget) (q : String) (r i : Option Json) (now : String) :
    (saveToSessionStorage w q r i now).storage.getThrows = w.storage.getThrows ∧
    (saveToSessionStorage w q r i now).storage.setThrows = w.storage.setThrows ∧
    (saveToSessionStorage w q r i now).storage.removeThrows = w.storage.removeThrows := by
  unfold saveToSessionStorage
  cases h : saveToSessionStorageTry w.storage (historyEntry q r i now) with
  | error e => simp [logError]
  | ok st =>
    simp only [saveToSessionStorageTry] at h
    cases h1 : readHistory w.storage with
    | error e => simp [h1] at h
    | ok history =>
      cases h2 : pushAndTrim history (historyEntry q r i now) with
      | error e => simp [h1, h2] at h
      | ok trimmed =>
        simp only [h1, h2, setItem] at h
        split_ifs at h
        cases h
        simp

theorem recordAll_flags (exs : List Exchange) : ∀ w : Widget,
    (recordAll w exs).storage.getThrows = w.storage.getThrows ∧
    (recordAll w exs).storage.setThrows = w.storage.setThrows := by
  induction exs with
  | nil => intro w; exact ⟨rfl, rfl⟩
  | cons e rest ih =>
    intro w
    have hrec : recordAll w (e :: rest) =
        recordAll (saveToSessionStorage w e.question e.response e.interactionId e.now) rest := rfl
    have hf := saveToSessionStorage_flags w e.question e.response e.interactionId e.now
    rw [hrec, (ih _).1, (ih _).2, hf.1, hf.2.1]
    exact ⟨rfl, rfl⟩

theorem recordAll_concat (w : Widget) (exs : List Exchange) (e : Exchange) :
    recordAll w (exs ++ [e]) =
      saveToSessionStorage (recordAll w exs) e.question e.response e.interactionId e.now := by
  simp [recordAll, List.foldl_append]

theorem readHistory_of_empty (st : Storage) (hget : st.getThrows = false)
    (hempty : st.item = none ∨ st.item = some .empty ∨ st.item = some (.json (.arr []))) :
    readHistory st = .ok (.arr []) := by
  rcases hempty with h | h | h <;> simp [readHistory, getItem, hget, h, orEmptyArray, jsonParse]

/-- C1: starting from a missing or empty `chatbot_history` entry, after any
sequence of `saveToSessionStorage` calls the stored transcript is exactly the
entries of the most recent `min n 50` calls, in call order; after 51 calls it
has 50 entries and is the sequence without the entry of the first call. -/
theorem recordAll_fifo (w : Widget) (exs : List Exchange)
    (hget : w.storage.getThrows = false) (hset : w.storage.setThrows = false)
    (hempty : w.storage.item = none ∨ w.storage.item = some .empty ∨
      w.storage.item = some (.json (.arr []))) :
    ∃ stored : List Json,
      readHistory (recordAll w exs).storage = .ok (.arr stored) ∧
      (exs ≠ [] → (recordAll w exs).storage.item = some (.json (.arr stored))) ∧
      stored = (exs.map Exchange.entry).drop (exs.length - 50) ∧
      stored.length = min exs.length 50 ∧
      (exs.length = 51 → stored.length = 50 ∧ stored = (exs.map Exchange.entry).tail) := by
  have hread := readHistory_of_empty w.storage hget hempty
  have hall := fun l => recordAll_from_array l w [] hget hset (by simp) hread
  refine ⟨lastFifty (exs.map Exchange.entry), ?_, ?_, ?_, ?_, ?_⟩
  · simpa using hall exs
  · intro hne
    rcases List.eq_nil_or_concat exs with h | ⟨pre, e, h⟩
    · exact absurd h hne
    · subst h
      have hpre := hall pre
      have hf := recordAll_flags pre w
      rw [List.concat_eq_append, recordAll_concat, saveToSessionStorage_of_array _ _ _ _ _ _ (hf.2.trans hset) hpre]
      simp only [List.nil_append, List.map_append, List.map_cons, List.map_nil]
      rw [lastFifty_append]
      rfl
  · simp [lastFifty]
  · simp [lastFifty_length]
  · intro h51
    refine ⟨by simp [lastFifty_length, h51], ?_⟩
    simp [lastFifty, h51]

/-- Two exchanges recorded on a fresh page. -/
theorem recordAll_fifo_witness :
    ((freshWidget "").storage.getThrows = false ∧ (freshWidget "").storage.setThrows = false ∧
      ((freshWidget "").storage.item = none ∨ (freshWidget "").storage.item = some .empty ∨
        (freshWidget "").storage.item = some (.json (.arr [])))) ∧
    ∃ stored : List Json,
      readHistory (recordAll (freshWidget "") sampleExchanges).storage = .ok (.arr stored) ∧
      (sampleExchanges ≠ [] →
        (recordAll (freshWidget "") sampleExchanges).storage.item = some (.json (.arr stored))) ∧
      stored = (sampleExchanges.map Exchange.entry).drop (sampleExchanges.length - 50) ∧
      stored.length = min sampleExchanges.length 50 ∧
      (sampleExchanges.length = 51 →
        stored.length = 50 ∧ stored = (sampleExchanges.map Exchange.entry).tail) :=
  ⟨⟨rfl, rfl, Or.inl rfl⟩,
   recordAll_fifo (freshWidget "") sampleExchanges rfl rfl (Or.inl rfl)⟩

theorem getCsrfToken_state (w : Widget) (page : Page) :
    (getCsrfToken w page).1 = { w with console := w.console ++ csrfLog page } := by
  unfold getCsrfToken csrfLog csrfLookupFails
  cases hc : truthy ((cookieToken page.cookie).map Json.str) with
  | true => simp
  | false =>
    cases hm : page.metaTag with
    | some content => cases content <;> simp
    | none =>
      cases he : page.configElement with
      | none => simp [csrfTokenFromConfig]
      | some text =>
        cases text with
        | empty => simp [csrfTokenFromConfig, jsonParse, logError]
        | malformed => simp [csrfTokenFromConfig, jsonParse, logError]
        | json cfg => cases cfg <;> simp [csrfTokenFromConfig, jsonParse, getProp, logError]

theorem clearConversation_storage (w : Widget) (rnd : Nat → Nat) (page : Page)
    (hremove : w.storage.removeThrows = false) :
    (clearConversation w rnd page).storage = { w.storage with item := none } := by
  cases hm : w.messages <;>
    simp [clearConversation, showTemporaryMessage, clearServerHistory, getCsrfToken_state,
      removeItem, hremove, hm]

/-- C2: whatever array the `chatbot_history` entry held, of any length, the
array `saveToSessionStorage` writes is the last fifty of the old entries
followed by the new one, so it has at most 50 entries; and `clearConversation`
leaves the entry removed. -/
theorem stored_history_bounded (w : Widget) (q : String) (r i : Option Json) (now : String)
    (xs : List Json) (rnd : Nat → Nat) (page : Page)
    (hget : w.storage.getThrows = false) (hset : w.storage.setThrows = false)
    (hremove : w.storage.removeThrows = false)
    (hitem : w.storage.item = some (.json (.arr xs))) :
    (∃ ys : List Json,
      (saveToSessionStorage w q r i now).storage.item = some (.json (.arr ys)) ∧
      ys = lastFifty (xs ++ [historyEntry q r i now]) ∧ ys.length ≤ 50) ∧
    (clearConversation w rnd page).storage.item = none ∧
    readHistory (clearConversation w rnd page).storage = .ok (.arr []) := by
  refine ⟨⟨_, ?_, rfl, lastFifty_length_le _⟩, ?_, ?_⟩
  · rw [saveToSessionStorage_of_array w q r i now xs hset (readHistory_of_item _ _ hget hitem)]
  · rw [clearConversation_storage w rnd page hremove]
  · rw [clearConversation_storage w rnd page hremove]
    exact readHistory_of_empty _ hget (Or.inl rfl)

/-- A store that already holds two entries. -/
theorem stored_history_bounded_witness :
    ((recordAll (freshWidget "") sampleExchanges).storage.getThrows = false ∧
      (recordAll (freshWidget "") sampleExchanges).storage.setThrows = false ∧
      (recordAll (freshWidget "") sampleExchanges).storage.removeThrows = false ∧
      (recordAll (freshWidget "") sampleExchanges).storage.item =
        some (.json (.arr (sampleExchanges.map Exchange.entry)))) ∧
    ((∃ ys : List Json,
      (saveToSessionStorage (recordAll (freshWidget "") sampleExchanges) "Gracias"
        (some (.str "De nada")) (some (.num 3)) "2024-05-01T10:02:00.000Z").storage.item =
          some (.json (.arr ys)) ∧
      ys = lastFifty (sampleExchanges.map Exchange.entry ++
        [historyEntry "Gracias" (some (.str "De nada")) (some (.num 3))
          "2024-05-01T10:02:00.000Z"]) ∧ ys.length ≤ 50) ∧
    (clearConversation (recordAll (freshWidget "") sampleExchanges) (fun k => k) emptyPage).storage.item
      = none ∧
    readHistory (clearConversation (recordAll (freshWidget "") sampleExchanges)
      (fun k => k) emptyPage).storage = .ok (.arr [])) :=
  ⟨⟨rfl, rfl, rfl, rfl⟩,
   stored_history_bounded (recordAll (freshWidget "") sampleExchanges) "Gracias"
     (some (.str "De nada")) (some (.num 3)) "2024-05-01T10:02:00.000Z"
     (sampleExchanges.map Exchange.entry) (fun k => k) emptyPage rfl rfl rfl rfl⟩

/-! ## Asking a question -/

/-- C3: when the input is empty after trimming, `sendMessage` returns at once:
no request is sent, no message is appended, the stored transcript and every
other part of the state are as before. -/
theorem sendMessage_blank (w : Widget) (text : String) (outcome : FetchOutcome) (now : String)
    (hinput : w.input = some text) (hblank : jsTrim text = "") :
    sendMessageBegin w = (w, none) ∧ sendMessage w outcome now = w ∧
    (sendMessage w outcome now).requests = w.requests ∧
    (sendMessage w outcome now).messages = w.messages ∧
    (sendMessage w outcome now).storage = w.storage := by
  have hbegin : sendMessageBegin w = (w, none) := by
    simp [sendMessageBegin, hinput, hblank]
  have hsend : sendMessage w outcome now = w := by
    simp [sendMessage, hbegin]
  simp [hbegin, hsend]

/-- The input holds three spaces. -/
theorem sendMessage_blank_witness :
    ((freshWidget "   ").input = some "   " ∧ jsTrim "   " = "") ∧
    (sendMessageBegin (freshWidget "   ") = (freshWidget "   ", none) ∧
     sendMessage (freshWidget "   ") .rejected "2024-05-01T10:00:00.000Z" = freshWidget "   " ∧
     (sendMessage (freshWidget "   ") .rejected "2024-05-01T10:00:00.000Z").requests =
       (freshWidget "   ").requests ∧
     (sendMessage (freshWidget "   ") .rejected "2024-05-01T10:00:00.000Z").messages =
       (freshWidget "   ").messages ∧
     (sendMessage (freshWidget "   ") .rejected "2024-05-01T10:00:00.000Z").storage =
       (freshWidget "   ").storage) :=
  ⟨⟨rfl, by decide⟩,
   sendMessage_blank (freshWidget "   ") "   " .rejected "2024-05-01T10:00:00.000Z" rfl
     (by decide)⟩

theorem addMessage_fields (w : Widget) (text : Option Json) (sender : Sender)
    (interactionId : Option Json) :
    (addMessage w text sender interactionId).storage = w.storage ∧
    (addMessage w text sender interactionId).requests = w.requests ∧
    (addMessage w text sender interactionId).sessionId = w.sessionId ∧
    (addMessage w text sender interactionId).apiBase = w.apiBase ∧
    (addMessage w text sender interactionId).input = w.input ∧
    (addMessage w text sender interactionId).console = w.console ∧
    (addMessage w text sender interactionId).currentInteractionId = w.currentInteractionId := by
  unfold addMessage
  cases w.messages <;> simp

theorem addMessage_user_messages (w : Widget) (text : Option Json) :
    (addMessage w text .user none).messages =
      w.messages.map (fun c => (c ++ [Node.message text .user none]).eraseP Node.isSuggestions) := by
  unfold addMessage
  cases h : w.messages <;> simp [h]

theorem addMessage_bot_messages (w : Widget) (text id : Option Json) :
    (addMessage w text .bot id).messages =
      w.messages.map (fun c => c ++ [Node.message text .bot (if truthy id = true then id else none)]) := by
  unfold addMessage
  cases h : w.messages <;> simp [h]

theorem sendMessageBegin_of_question (w : Widget) (text : String)
    (hinput : w.input = some text) (hq : jsTrim text ≠ "") :
    sendMessageBegin w =
      (callAPI (addMessage { w with input := some "" } (some (.str (jsTrim text))) .user none) "ask/"
        (mkObject [("pregunta", some (.str (jsTrim text))), ("session_id", w.sessionId)]),
       some (jsTrim text)) := by
  simp [sendMessageBegin, hinput, hq, (addMessage_fields _ _ _ _).2.2.1]

theorem callAPIResult_of_failure (outcome : FetchOutcome) (hfail : outcome.isFailure = true) :
    (∃ e, callAPIResult outcome = .error e) ∨
    ∃ status b, outcome = .response status (some b) ∧ callAPIResult outcome = .ok b ∧
      prop b "success" = some (.bool false) := by
  cases outcome with
  | rejected => exact Or.inl ⟨_, rfl⟩
  | response status body =>
    by_cases hs : 200 ≤ status ∧ status ≤ 299
    · cases body with
      | none => simp [FetchOutcome.isFailure, hs] at hfail
      | some b =>
        refine Or.inr ⟨status, b, rfl, by simp [callAPIResult, hs], ?_⟩
        simp only [FetchOutcome.isFailure, hs, decide_True, Bool.not_true, Bool.false_or] at hfail
        split at hfail
        · assumption
        · exact absurd hfail (by decide)
    · exact Or.inl ⟨.httpError status, by simp [callAPIResult, hs]⟩

theorem getProp_of_prop (v : Json) (key : String) (x : Json) (h : prop v key = some x) :
    getProp v key = .ok (some x) := by
  cases v <;> simp_all [getProp, prop]

/-- C4: for a question that is not blank, when the request is rejected,
answered with a status outside 2xx, or answered with `success: false`,
`sendMessage` sends exactly one request, appends the user turn and then one
fallback bot turn to the messages, and leaves the storage as it was. -/
theorem sendMessage_failure (w : Widget) (text : String) (outcome : FetchOutcome) (now : String)
    (hinput : w.input = some text) (hq : jsTrim text ≠ "") (hfail : outcome.isFailure = true) :
    (sendMessage w outcome now).requests = w.requests ++
      [{ base := w.apiBase, endpoint := "ask/",
         body := mkObject [("pregunta", some (.str (jsTrim text))), ("session_id", w.sessionId)] }] ∧
    (sendMessage w outcome now).storage = w.storage ∧
    readHistory (sendMessage w outcome now).storage = readHistory w.storage ∧
    ∃ fallback : Json,
      (sendMessage w outcome now).messages =
        w.messages.map (fun c => afterTurns c (some (.str (jsTrim text))) (some fallback) none) ∧
      (fallback = connectionErrorText ∨
        ∃ status b, outcome = .response status (some b) ∧
          fallback = orDefault (prop b "error") serverErrorText) := by
  have hbegin := sendMessageBegin_of_question w text hinput hq
  rcases callAPIResult_of_failure outcome hfail with ⟨e, he⟩ | ⟨status, b, hout, hb, hsucc⟩
  · have hsend : sendMessage w outcome now =
        addMessage (logError (callAPI (addMessage { w with input := some "" }
          (some (.str (jsTrim text))) .user none) "ask/"
          (mkObject [("pregunta", some (.str (jsTrim text))), ("session_id", w.sessionId)]))
          "Error sending message:") (some connectionErrorText) .bot none := by
      simp [sendMessage, hbegin, sendMessageResume, sendMessageTry, he]
    rw [hsend]
    refine ⟨?_, ?_, ?_, connectionErrorText, ?_, Or.inl rfl⟩
    · simp [addMessage_fields, logError, callAPI]
    · simp [addMessage_fields, logError, callAPI]
    · simp [addMessage_fields, logError, callAPI]
    · simp only [addMessage_bot_messages, logError, callAPI, addMessage_user_messages]
      cases w.messages <;> simp [afterTurns, truthy]
  · have hsend : sendMessage w outcome now =
        addMessage (callAPI (addMessage { w with input := some "" }
          (some (.str (jsTrim text))) .user none) "ask/"
          (mkObject [("pregunta", some (.str (jsTrim text))), ("session_id", w.sessionId)]))
          (some (orDefault (prop b "error") serverErrorText)) .bot none := by
      simp [sendMessage, hbegin, sendMessageResume, sendMessageTry, hb,
        getProp_of_prop b "success" _ hsucc, truthy]
    rw [hsend]
    refine ⟨?_, ?_, ?_, orDefault (prop b "error") serverErrorText, ?_, Or.inr ⟨status, b, hout, rfl⟩⟩
    · simp [addMessage_fields, callAPI]
    · simp [addMessage_fields, callAPI]
    · simp [addMessage_fields, callAPI]
    · simp only [addMessage_bot_messages, callAPI, addMessage_user_messages]
      cases w.messages <;> simp [afterTurns, truthy]

/-- The server answers "Hola" with status 503. -/
theorem sendMessage_failure_witness :
    ((freshWidget "Hola").input = some "Hola" ∧ jsTrim "Hola" ≠ "" ∧
      (FetchOutcome.response 503 none).isFailure = true) ∧
    ((sendMessage (freshWidget "Hola") (.response 503 none) "2024-05-01T10:00:00.000Z").requests =
      (freshWidget "Hola").requests ++
        [{ base := (freshWidget "Hola").apiBase, endpoint := "ask/",
           body := mkObject [("pregunta", some (.str (jsTrim "Hola"))),
             ("session_id", (freshWidget "Hola").sessionId)] }] ∧
     (sendMessage (freshWidget "Hola") (.response 503 none) "2024-05-01T10:00:00.000Z").storage =
       (freshWidget "Hola").storage) :=
  ⟨⟨rfl, by decide, rfl⟩,
   (sendMessage_failure (freshWidget "Hola") "Hola" (.response 503 none)
      "2024-05-01T10:00:00.000Z" rfl (by decide) rfl).1,
   (sendMessage_failure (freshWidget "Hola") "Hola" (.response 503 none)
      "2024-05-01T10:00:00.000Z" rfl (by decide) rfl).2.1⟩

theorem lastFifty_concat (xs : List Json) (e : Json) :
    lastFifty (xs ++ [e]) = xs.drop (xs.length - 49) ++ [e] := by
  unfold lastFifty
  have h : (xs ++ [e]).length - 50 = xs.length - 49 := by
    simp only [List.length_append, List.length_singleton]
    omega
  rw [h, List.drop_append_of_le_length (Nat.sub_le _ _)]

/-- C5: for a question `q` that is not blank and a 2xx response whose payload
has `success: true`, `respuesta: a` and `interaction_id: i`, `sendMessage`
sends one request to `ask/` with body `pregunta: q, session_id: <current id>`
and the stored transcript becomes the earlier entries, in order and cut to
the cap, followed by the entry `pregunta: q, respuesta: a, timestamp: <clock>,
interaction_id: i`. -/
theorem sendMessage_success (w : Widget) (text now : String) (status : Nat)
    (body a i sid : Json) (xs : List Json)
    (hinput : w.input = some text) (hq : jsTrim text ≠ "")
    (hsid : w.sessionId = some sid)
    (hstatus : 200 ≤ status ∧ status ≤ 299)
    (hsuccess : prop body "success" = some (.bool true))
    (ha : prop body "respuesta" = some a) (hi : prop body "interaction_id" = some i)
    (hget : w.storage.getThrows = false) (hset : w.storage.setThrows = false)
    (hread : readHistory w.storage = .ok (.arr xs)) :
    (sendMessage w (.response status (some body)) now).requests = w.requests ++
      [{ base := w.apiBase, endpoint := "ask/",
         body := .obj [("pregunta", .str (jsTrim text)), ("session_id", sid)] }] ∧
    readHistory (sendMessage w (.response status (some body)) now).storage =
      .ok (.arr (xs.drop (xs.length - 49) ++
        [.obj [("pregunta", .str (jsTrim text)), ("respuesta", a), ("timestamp", .str now),
          ("interaction_id", i)]])) ∧
    (sendMessage w (.response status (some body)) now).messages =
      w.messages.map (fun c => afterTurns c (some (.str (jsTrim text))) (some a)
        (if truthy (some i) = true then some i else none)) ∧
    (sendMessage w (.response status (some body)) now).currentInteractionId = some i := by
  have hbegin := sendMessageBegin_of_question w text hinput hq
  have hsend : sendMessage w (.response status (some body)) now =
      saveToSessionStorage
        { addMessage (callAPI (addMessage { w with input := some "" }
            (some (.str (jsTrim text))) .user none) "ask/"
            (mkObject [("pregunta", some (.str (jsTrim text))), ("session_id", w.sessionId)]))
            (some a) .bot (some i) with currentInteractionId := some i }
        (jsTrim text) (some a) (some i) now := by
    simp [sendMessage, hbegin, sendMessageResume, sendMessageTry, callAPIResult, hstatus,
      getProp_of_prop body "success" _ hsuccess, truthy, ha, hi]
  have hstore : ({ addMessage (callAPI (addMessage { w with input := some "" }
            (some (.str (jsTrim text))) .user none) "ask/"
            (mkObject [("pregunta", some (.str (jsTrim text))), ("session_id", w.sessionId)]))
            (some a) .bot (some i) with currentInteractionId := some i } : Widget).storage
          = w.storage := by
    simp [addMessage_fields, callAPI]
  rw [hsend, saveToSessionStorage_of_array _ _ _ _ _ xs (by rw [hstore]; exact hset)
    (by rw [hstore]; exact hread)]
  refine ⟨?_, ?_, ?_, ?_⟩
  · simp [addMessage_fields, callAPI, mkObject, hsid]
  · rw [readHistory_of_item _ _ (by simp [addMessage_fields, callAPI, hget]) rfl, lastFifty_concat]
    simp [historyEntry, mkObject]
  · simp only [addMessage_bot_messages, callAPI, addMessage_user_messages]
    cases w.messages <;> simp [afterTurns]
  · rfl

/-- The scenario of the specification: "Hola" answered with interaction 42. -/
theorem sendMessage_success_witness :
    (sendMessage { freshWidget "Hola" with sessionId := some (.str "s-1") }
      (.response 200 (some (.obj [("success", .bool true),
        ("respuesta", .str "Hola, ¿en qué ayudo?"), ("interaction_id", .num 42)])))
      "2024-05-01T10:00:00.000Z").requests =
      [{ base := .str "/chatbot/", endpoint := "ask/",
         body := .obj [("pregunta", .str "Hola"), ("session_id", .str "s-1")] }] ∧
    readHistory (sendMessage { freshWidget "Hola" with sessionId := some (.str "s-1") }
      (.response 200 (some (.obj [("success", .bool true),
        ("respuesta", .str "Hola, ¿en qué ayudo?"), ("interaction_id", .num 42)])))
      "2024-05-01T10:00:00.000Z").storage =
      .ok (.arr [.obj [("pregunta", .str "Hola"), ("respuesta", .str "Hola, ¿en qué ayudo?"),
        ("timestamp", .str "2024-05-01T10:00:00.000Z"), ("interaction_id", .num 42)]]) :=
  ⟨(sendMessage_success { freshWidget "Hola" with sessionId := some (.str "s-1") } "Hola"
      "2024-05-01T10:00:00.000Z" 200 (.obj [("success", .bool true),
        ("respuesta", .str "Hola, ¿en qué ayudo?"), ("interaction_id", .num 42)])
      (.str "Hola, ¿en qué ayudo?") (.num 42) (.str "s-1") [] rfl (by decide) rfl
      (by decide) rfl rfl rfl rfl rfl rfl).1,
   (sendMessage_success { freshWidget "Hola" with sessionId := some (.str "s-1") } "Hola"
      "2024-05-01T10:00:00.000Z" 200 (.obj [("success", .bool true),
        ("respuesta", .str "Hola, ¿en qué ayudo?"), ("interaction_id", .num 42)])
      (.str "Hola, ¿en qué ayudo?") (.num 42) (.str "s-1") [] rfl (by decide) rfl
      (by decide) rfl rfl rfl rfl rfl rfl).2.1⟩

/-! ## Clearing the conversation -/

theorem loadSessionHistory_of_no_item (coerce : Coerce) (v : Widget) (h : v.storage.item = none) :
    (loadSessionHistory coerce v).messages = v.messages := by
  unfold loadSessionHistory readHistory getItem
  cases hg : v.storage.getThrows <;>
    simp [h, orEmptyArray, jsonParse, logError, displayHistory, truthy, prop, isZero]

theorem clearConversation_messages (w : Widget) (rnd : Nat → Nat) (page : Page) :
    (clearConversation w rnd page).messages =
      w.messages.map (fun _ => initialMessages ++ [clearedNotice]) := by
  cases hm : w.messages <;> cases hr : w.storage.removeThrows <;>
    simp [clearConversation, showTemporaryMessage, clearServerHistory, getCsrfToken_state,
      logError, removeItem,
      hm, hr, initialMessages, clearedNotice]

/-- C6: whatever the state before and however the `clear-history/` request
settles, `clearConversation` removes the `chatbot_history` entry and resets the
messages to the initial ones; a later `loadSessionHistory` renders nothing; and
the settling of the request changes neither the storage, nor the messages, nor
the session identifier. -/
theorem clearConversation_local_first (coerce : Coerce) (w : Widget) (rnd : Nat → Nat)
    (page : Page) (outcome : FetchOutcome) (hremove : w.storage.removeThrows = false) :
    (clearConversation w rnd page).storage.item = none ∧
    (clearConversation w rnd page).messages =
      w.messages.map (fun _ => initialMessages ++ [clearedNotice]) ∧
    (clearServerHistorySettled (clearConversation w rnd page) outcome).storage =
      (clearConversation w rnd page).storage ∧
    (clearServerHistorySettled (clearConversation w rnd page) outcome).messages =
      (clearConversation w rnd page).messages ∧
    (clearServerHistorySettled (clearConversation w rnd page) outcome).sessionId =
      (clearConversation w rnd page).sessionId ∧
    ∀ v : Widget,
      v.storage = (clearServerHistorySettled (clearConversation w rnd page) outcome).storage →
      (loadSessionHistory coerce v).messages = v.messages := by
  have hsettled : (clearServerHistorySettled (clearConversation w rnd page) outcome).storage =
      (clearConversation w rnd page).storage := by
    cases outcome <;> rfl
  refine ⟨?_, clearConversation_messages w rnd page, hsettled, ?_, ?_, ?_⟩
  · rw [clearConversation_storage w rnd page hremove]
  · cases outcome <;> rfl
  · cases outcome <;> rfl
  · intro v hv
    apply loadSessionHistory_of_no_item
    rw [hv, hsettled, clearConversation_storage w rnd page hremove]

/-- A conversation of two exchanges is cleared and the request is rejected. -/
theorem clearConversation_local_first_witness :
    (recordAll (freshWidget "") sampleExchanges).storage.removeThrows = false ∧
    (clearConversation (recordAll (freshWidget "") sampleExchanges) (fun k => k) emptyPage).storage.item
      = none ∧
    (loadSessionHistory (fun _ => .ok false) (freshWidget "")).messages =
      (freshWidget "").messages :=
  ⟨rfl,
   (clearConversation_local_first (fun _ => .ok false)
      (recordAll (freshWidget "") sampleExchanges) (fun k => k) emptyPage .rejected rfl).1,
   (clearConversation_local_first (fun _ => .ok false)
      (recordAll (freshWidget "") sampleExchanges) (fun k => k) emptyPage .rejected rfl).2.2.2.2.2
      (freshWidget "") rfl⟩

/-! ## The regenerated identifier -/

theorem hexDigit_injective : ∀ a, a < 16 → ∀ b, b < 16 → hexDigit a = hexDigit b → a = b := by
  decide

theorem hexDigit_variant_injective : ∀ a, a < 16 → ∀ b, b < 16 →
    hexDigit ((a &&& 3) ||| 8) = hexDigit ((b &&& 3) ||| 8) → a % 4 = b % 4 := by
  decide

theorem generateSessionId_eq_iff (rnd rnd0 : Nat → Nat) :
    generateSessionId rnd = generateSessionId rnd0 ↔ ∀ k, k < 31 → nibble rnd k = nibble rnd0 k := by
  have hinj : ∀ k, hexDigit (rnd k % 16) = hexDigit (rnd0 k % 16) ↔ rnd k % 16 = rnd0 k % 16 :=
    fun k => ⟨hexDigit_injective _ (Nat.mod_lt _ (by decide)) _ (Nat.mod_lt _ (by decide)),
      fun h => by rw [h]⟩
  have hvar : hexDigit ((rnd 15 % 16 &&& 3) ||| 8) = hexDigit ((rnd0 15 % 16 &&& 3) ||| 8) ↔
      rnd 15 % 4 = rnd0 15 % 4 := by
    constructor
    · intro h
      have := hexDigit_variant_injective _ (Nat.mod_lt (rnd 15) (by decide)) _
        (Nat.mod_lt (rnd0 15) (by decide)) h
      omega
    · intro h
      have e : ∀ n : Nat, n % 16 &&& 3 = n % 4 := by
        intro n
        have h3 : (3 : Nat) = 2 ^ 2 - 1 := rfl
        rw [h3, Nat.and_pow_two_sub_one_eq_mod]
        omega
      rw [e, e, h]
  rw [String.ext_iff, generateSessionId_data, generateSessionId_data]
  simp only [List.cons.injEq, hinj, hvar, and_true, true_and]
  constructor
  · intro h k hk
    unfold nibble
    interval_cases k <;> simp <;> tauto
  · intro h
    have h' := fun k hk => by simpa [nibble] using h k hk
    refine ⟨h' 0 (by decide), h' 1 (by decide), h' 2 (by decide), h' 3 (by decide),
      h' 4 (by decide), h' 5 (by decide), h' 6 (by decide), h' 7 (by decide),
      h' 8 (by decide), h' 9 (by decide), h' 10 (by decide), h' 11 (by decide),
      h' 12 (by decide), h' 13 (by decide), h' 14 (by decide), ?_, h' 16 (by decide),
      h' 17 (by decide), h' 18 (by decide), h' 19 (by decide), h' 20 (by decide),
      h' 21 (by decide), h' 22 (by decide), h' 23 (by decide), h' 24 (by decide),
      h' 25 (by decide), h' 26 (by decide), h' 27 (by decide), h' 28 (by decide),
      h' 29 (by decide), h' 30 (by decide)⟩
    simpa [nibble] using h 15 (by decide)

theorem sessionId_after_clear (w : Widget) (rnd : Nat → Nat) (page : Page) :
    (clearConversation w rnd page).sessionId = some (.str (generateSessionId rnd)) := by
  cases hm : w.messages <;> cases hr : w.storage.removeThrows <;>
    simp [clearConversation, showTemporaryMessage, clearServerHistory, getCsrfToken_state,
      logError, removeItem,
      hm, hr]

/-- C7 as stated fails: a clear whose random source repeats the values that
produced the current identifier leaves the identifier as it was. -/
theorem clearConversation_same_sessionId :
    (clearConversation (freshWidget "") (fun _ => 7) emptyPage).sessionId =
      some (.str "77777777-7777-4777-b777-777777777777") ∧
    (clearConversation (clearConversation (freshWidget "") (fun _ => 7) emptyPage) (fun _ => 7)
      emptyPage).sessionId =
      (clearConversation (freshWidget "") (fun _ => 7) emptyPage).sessionId :=
  ⟨rfl, rfl⟩

/-- C7, amended: after `clearConversation` the session identifier is the one
`generateSessionId` builds from the random values, whatever the identifier was
before; it differs from the previous identifier exactly when the previous one
is not that string, and, for a previous identifier that was itself generated,
exactly when one of the 31 random nibbles differs. -/
theorem clearConversation_sessionId (w : Widget) (rnd : Nat → Nat) (page : Page) :
    (clearConversation w rnd page).sessionId = some (.str (generateSessionId rnd)) ∧
    ((clearConversation w rnd page).sessionId ≠ w.sessionId ↔
      w.sessionId ≠ some (.str (generateSessionId rnd))) ∧
    ∀ rnd0 : Nat → Nat, w.sessionId = some (.str (generateSessionId rnd0)) →
      ((clearConversation w rnd page).sessionId ≠ w.sessionId ↔
        ∃ k, k < 31 ∧ nibble rnd k ≠ nibble rnd0 k) := by
  have heq := sessionId_after_clear w rnd page
  refine ⟨heq, ?_, ?_⟩
  · rw [heq]
    exact ⟨fun h h' => h h'.symm, fun h h' => h h'.symm⟩
  · intro rnd0 h0
    rw [heq, h0]
    simp only [ne_eq, Option.some.injEq, Json.str.injEq, generateSessionId_eq_iff]
    push_neg
    rfl

/-- A generated identifier is replaced by a different one when the random
values differ. -/
theorem clearConversation_sessionId_witness :
    (clearConversation (freshWidget "") (fun _ => 7) emptyPage).sessionId =
      some (.str (generateSessionId (fun _ => 7))) ∧
    (clearConversation (clearConversation (freshWidget "") (fun _ => 7) emptyPage) (fun k => k)
      emptyPage).sessionId ≠
      (clearConversation (freshWidget "") (fun _ => 7) emptyPage).sessionId :=
  ⟨rfl,
   ((clearConversation_sessionId (clearConversation (freshWidget "") (fun _ => 7) emptyPage)
      (fun k => k) emptyPage).2.2 (fun _ => 7) rfl).2 ⟨0, by decide, by decide⟩⟩

/-! ## Rendering a history -/

theorem eraseP_suggestions_append (c m : List Node)
    (hm : ∀ x ∈ m, Node.isSuggestions x = false) :
    (c ++ m).eraseP Node.isSuggestions = c.eraseP Node.isSuggestions ++ m := by
  have hm' : m.eraseP Node.isSuggestions = m :=
    List.eraseP_of_forall_not (fun a ha => by simp [hm a ha])
  rw [List.eraseP_append]
  split_ifs with h
  · rfl
  · rw [hm', List.eraseP_of_forall_not]
    intro a ha hp
    exact h (List.any_eq_true.mpr ⟨a, ha, hp⟩)

theorem renderEntry_not_suggestions (item : Json) :
    ∀ x ∈ renderEntry item, Node.isSuggestions x = false := by
  intro x hx
  simp only [renderEntry, List.mem_cons, List.mem_singleton, List.not_mem_nil, or_false] at hx
  rcases hx with h | h <;> rw [h] <;> rfl

theorem displayItems_messages (items : List Json) :
    ∀ (w : Widget) (c m : List Node), w.messages = some (c ++ m) →
      (∀ x ∈ m, Node.isSuggestions x = false) → (∀ x ∈ items, x ≠ Json.null) →
      displayItems w items =
        ({ w with messages := some (stripSuggestions items.length c ++ m ++ renderEntries items) },
          none) := by
  induction items with
  | nil =>
    intro w c m hw _ _
    simp [displayItems, stripSuggestions, renderEntries, ← hw]
  | cons item rest ih =>
    intro w c m hw hm hitems
    have hnull : item ≠ Json.null := hitems item (List.mem_cons_self _ _)
    have hget : getProp item "pregunta" = .ok (prop item "pregunta") := by
      cases item <;> first | rfl | exact absurd rfl hnull
    have hu : ∀ x ∈ m ++ [Node.message (prop item "pregunta") .user none],
        Node.isSuggestions x = false := by
      intro x hx
      rcases List.mem_append.mp hx with h | h
      · exact hm x h
      · rw [List.mem_singleton.mp h]; rfl
    have hstep : addMessage (addMessage w (prop item "pregunta") .user none)
        (prop item "respuesta") .bot (prop item "interaction_id") =
        { w with messages := some (c.eraseP Node.isSuggestions ++ (m ++ renderEntry item)) } := by
      have h1 : (c ++ (m ++ [Node.message (prop item "pregunta") .user none])).eraseP
          Node.isSuggestions =
          c.eraseP Node.isSuggestions ++ (m ++ [Node.message (prop item "pregunta") .user none]) :=
        eraseP_suggestions_append c _ hu
      simp [addMessage, hw, h1, renderEntry]
    have hm2 : ∀ x ∈ m ++ renderEntry item, Node.isSuggestions x = false := by
      intro x hx
      rcases List.mem_append.mp hx with h | h
      · exact hm x h
      · exact renderEntry_not_suggestions item x h
    simp only [displayItems, hget, hstep]
    rw [ih _ (c.eraseP Node.isSuggestions) (m ++ renderEntry item) rfl hm2
      (fun x hx => hitems x (List.mem_cons_of_mem _ hx))]
    simp [stripSuggestions, renderEntries, List.append_assoc]

theorem displayItems_no_container (items : List Json) :
    ∀ (w : Widget), w.messages = none → (∀ x ∈ items, x ≠ Json.null) →
      displayItems w items = (w, none) := by
  induction items with
  | nil => intro w _ _; rfl
  | cons item rest ih =>
    intro w hw hitems
    have hnull : item ≠ Json.null := hitems item (List.mem_cons_self _ _)
    have hget : getProp item "pregunta" = .ok (prop item "pregunta") := by
      cases item <;> first | rfl | exact absurd rfl hnull
    have hstep : addMessage (addMessage w (prop item "pregunta") .user none)
        (prop item "respuesta") .bot (prop item "interaction_id") = w := by
      simp [addMessage, hw]
    simp only [displayItems, hget, hstep]
    exact ih w hw (fun x hx => hitems x (List.mem_cons_of_mem _ hx))

/-- What `displayHistory` does with a non-empty array of entries. -/
theorem displayHistory_entries (coerce : Coerce) (w : Widget) (c : List Node) (items : List Json)
    (hw : w.messages = some c) (hne : items ≠ []) (hitems : ∀ x ∈ items, x ≠ Json.null) :
    displayHistory coerce w (some (.arr items)) =
      ({ w with messages := some (stripSuggestions (items.length + 1)
          (c.eraseP Node.isBotMessage) ++ renderEntries items) }, none) := by
  have hlen : 0 < items.length := List.length_pos.mpr hne
  have hz : isZero (prop (.arr items) "length") = false := by
    simp only [prop, isZero, if_true, beq_eq_false_iff_ne, ne_eq]
    omega
  have hg : gtZero coerce (prop (.arr items) "length") = .ok true := by
    simp [prop, gtZero, hlen]
  have hrw : removeWelcome coerce w (prop (.arr items) "length") =
      .ok { w with messages := some ((c.eraseP Node.isBotMessage).eraseP Node.isSuggestions) } := by
    simp [removeWelcome, hw, hg]
  simp only [displayHistory, truthy, hz, hrw]
  have := displayItems_messages items
    { w with messages := some ((c.eraseP Node.isBotMessage).eraseP Node.isSuggestions) }
    ((c.eraseP Node.isBotMessage).eraseP Node.isSuggestions) [] (by simp) (by simp) hitems
  simpa [stripSuggestions] using this

theorem displayItems_storage (items : List Json) : ∀ w : Widget,
    (displayItems w items).1.storage = w.storage := by
  induction items with
  | nil => intro w; rfl
  | cons item rest ih =>
    intro w
    cases hg : getProp item "pregunta" with
    | error e => simp [displayItems, hg]
    | ok v => simp [displayItems, hg, ih, addMessage_fields]

theorem displayHistory_storage (coerce : Coerce) (w : Widget) (history : Option Json) :
    (displayHistory coerce w history).1.storage = w.storage := by
  unfold displayHistory
  cases history with
  | none => rfl
  | some h =>
    simp only
    split_ifs
    · rfl
    · rfl
    · cases hr : removeWelcome coerce w (prop h "length") with
      | error e => rfl
      | ok w1 =>
        have hw1 : w1.storage = w.storage := by
          unfold removeWelcome at hr
          cases hm : w.messages with
          | none => simp [hm] at hr; rw [← hr]
          | some children =>
            simp only [hm] at hr
            cases hgt : gtZero coerce (prop h "length") with
            | error e => simp [hgt] at hr
            | ok b => cases b <;> simp [hgt] at hr <;> rw [← hr]
        cases h <;> simp [displayItems_storage, hw1]

theorem loadSessionHistory_storage (coerce : Coerce) (w : Widget) :
    (loadSessionHistory coerce w).storage = w.storage := by
  unfold loadSessionHistory
  cases readHistory w.storage with
  | error e => rfl
  | ok history =>
    have h := displayHistory_storage coerce w (some history)
    rcases hd : displayHistory coerce w (some history) with ⟨w1, err⟩
    rw [hd] at h
    cases err <;> simpa [logError, hd] using h

theorem loadSessionHistory_of_empty (coerce : Coerce) (w : Widget)
    (h : readHistory w.storage = .ok (.arr []) ∨ ∃ e, readHistory w.storage = .error e) :
    (loadSessionHistory coerce w).messages = w.messages := by
  rcases h with h | ⟨e, h⟩
  · simp [loadSessionHistory, h, displayHistory, truthy, prop, isZero]
  · simp [loadSessionHistory, h, logError]

theorem loadSessionHistory_entries (coerce : Coerce) (w : Widget) (c : List Node)
    (items : List Json) (hw : w.messages = some c) (hread : readHistory w.storage = .ok (.arr items))
    (hne : items ≠ []) (hitems : ∀ x ∈ items, x ≠ Json.null) :
    (loadSessionHistory coerce w).messages =
      some (stripSuggestions (items.length + 1) (c.eraseP Node.isBotMessage) ++
        renderEntries items) := by
  simp [loadSessionHistory, hread, displayHistory_entries coerce w c items hw hne hitems]

theorem loadConfig_host_history (coerce : Coerce) (w : Widget) (c : List Node) (cfg : Json)
    (hs : List Json) (rnd : Nat → Nat) (hw : w.messages = some c)
    (hcfg : prop cfg "history" = some (.arr hs)) (hne : hs ≠ [])
    (hitems : ∀ x ∈ hs, x ≠ Json.null) :
    (loadConfig coerce w (some (.json cfg)) rnd).messages =
      some (stripSuggestions (hs.length + 1) (c.eraseP Node.isBotMessage) ++ renderEntries hs) ∧
    (loadConfig coerce w (some (.json cfg)) rnd).storage = w.storage := by
  have hnull : cfg ≠ Json.null := by
    intro h; rw [h] at hcfg; simp [prop] at hcfg
  have hget : getProp cfg "session_id" = .ok (prop cfg "session_id") := by
    cases cfg <;> first | rfl | exact absurd rfl hnull
  have hlen : 0 < hs.length := List.length_pos.mpr hne
  have hg : gtZero coerce (prop (.arr hs) "length") = .ok true := by
    simp [prop, gtZero, hlen]
  have htry : loadConfigTry coerce w (.json cfg) =
      ({ w with sessionId := prop cfg "session_id",
                apiBase := orDefault (prop cfg "api_base") (.str "/chatbot/"),
                messages := some (stripSuggestions (hs.length + 1)
                  (c.eraseP Node.isBotMessage) ++ renderEntries hs) }, none) := by
    simp only [loadConfigTry, jsonParse, hget, hcfg, truthy, hg]
    rw [if_neg (by simp), displayHistory_entries coerce
      { w with sessionId := prop cfg "session_id",
               apiBase := orDefault (prop cfg "api_base") (.str "/chatbot/") } c hs hw hne hitems]
  unfold loadConfig
  simp only [htry]
  split_ifs <;> exact ⟨rfl, rfl⟩

theorem stripSuggestions_nil (n : Nat) : stripSuggestions n [] = [] := by
  induction n with
  | zero => rfl
  | succ n ih => simpa [stripSuggestions] using ih

/-! ## Initialisation with a host-supplied history -/

/-- C8 as stated fails: with one host-supplied entry and one stored entry,
`init` also renders the stored entry, so the messages are not the host-supplied
entries alone. -/
theorem init_renders_stored_history :
    (init (fun _ => .ok false) (create (some "") (some initialMessages) sampleStorage)
      (some (.json sampleConfig)) (fun k => k)).messages =
      some [Node.message (some (.str "A?")) .user none,
            Node.message (some (.str "B?")) .user none,
            Node.message (some (.str "B!")) .bot (some (.num 2))] ∧
    (init (fun _ => .ok false) (create (some "") (some initialMessages) sampleStorage)
      (some (.json sampleConfig)) (fun k => k)).messages ≠
      some (renderEntries [.obj [("pregunta", .str "A?"), ("respuesta", .str "A!"),
        ("interaction_id", .num 1)]]) :=
  ⟨rfl, by
    intro h
    have hlen := congrArg (Option.map List.length) h
    revert hlen
    decide⟩

/-- C8, amended: for a host configuration with a non-empty history, `init`
renders the host-supplied entries, in order, and then still runs
`loadSessionHistory`; the store is not skipped.  When the store holds no
entries or cannot be read, the rendered entries are exactly the host-supplied
ones; when it holds a non-empty array of entries, these are rendered too, after
the host-supplied ones. -/
theorem init_host_history (coerce : Coerce) (w : Widget) (c : List Node) (cfg : Json)
    (hs : List Json) (rnd : Nat → Nat) (hw : w.messages = some c)
    (hcfg : prop cfg "history" = some (.arr hs)) (hne : hs ≠ [])
    (hitems : ∀ x ∈ hs, x ≠ Json.null) :
    init coerce w (some (.json cfg)) rnd =
      loadSessionHistory coerce (loadConfig coerce w (some (.json cfg)) rnd) ∧
    (loadConfig coerce w (some (.json cfg)) rnd).messages =
      some (stripSuggestions (hs.length + 1) (c.eraseP Node.isBotMessage) ++ renderEntries hs) ∧
    (c = initialMessages →
      (loadConfig coerce w (some (.json cfg)) rnd).messages = some (renderEntries hs)) ∧
    ((readHistory w.storage = .ok (.arr []) ∨ ∃ e, readHistory w.storage = .error e) →
      (init coerce w (some (.json cfg)) rnd).messages =
        some (stripSuggestions (hs.length + 1) (c.eraseP Node.isBotMessage) ++ renderEntries hs)) ∧
    (∀ ss : List Json, readHistory w.storage = .ok (.arr ss) → ss ≠ [] →
      (∀ x ∈ ss, x ≠ Json.null) →
      ∃ before : List Node,
        (init coerce w (some (.json cfg)) rnd).messages = some (before ++ renderEntries ss)) := by
  have hload := loadConfig_host_history coerce w c cfg hs rnd hw hcfg hne hitems
  refine ⟨rfl, hload.1, ?_, ?_, ?_⟩
  · intro hc
    rw [hload.1, hc]
    simp [initialMessages, stripSuggestions, Node.isBotMessage, Node.isSuggestions,
      stripSuggestions_nil]
  · intro hempty
    unfold init
    rw [loadSessionHistory_of_empty coerce _ (by rw [hload.2]; exact hempty), hload.1]
  · intro ss hread hss hnn
    unfold init
    exact ⟨_, loadSessionHistory_entries coerce _ _ ss hload.1 (by rw [hload.2]; exact hread)
      hss hnn⟩

/-- The sample configuration on a fresh page whose store is empty. -/
theorem init_host_history_witness :
    ((create (some "") (some initialMessages) emptyStorage).messages = some initialMessages ∧
      prop sampleConfig "history" = some (.arr [.obj [("pregunta", .str "A?"),
        ("respuesta", .str "A!"), ("interaction_id", .num 1)]])) ∧
    (init (fun _ => .ok false) (create (some "") (some initialMessages) emptyStorage)
      (some (.json sampleConfig)) (fun k => k)).messages =
      some (stripSuggestions 2 (initialMessages.eraseP Node.isBotMessage) ++
        renderEntries [.obj [("pregunta", .str "A?"), ("respuesta", .str "A!"),
          ("interaction_id", .num 1)]]) :=
  ⟨⟨rfl, rfl⟩,
   (init_host_history (fun _ => .ok false) (create (some "") (some initialMessages) emptyStorage)
      initialMessages sampleConfig
      [.obj [("pregunta", .str "A?"), ("respuesta", .str "A!"), ("interaction_id", .num 1)]]
      (fun k => k) rfl rfl (by simp) (by simp)).2.2.2.1 (Or.inl rfl)⟩

/-! ## Saving and loading again -/

theorem historyEntry_fields (q : String) (r i : Option Json) (now : String) :
    prop (historyEntry q r i now) "pregunta" = some (.str q) ∧
    prop (historyEntry q r i now) "respuesta" = r ∧
    prop (historyEntry q r i now) "timestamp" = some (.str now) ∧
    prop (historyEntry q r i now) "interaction_id" = i := by
  cases r <;> cases i <;> simp [historyEntry, mkObject, prop, lookup]

theorem historyEntry_ne_null (q : String) (r i : Option Json) (now : String) :
    historyEntry q r i now ≠ Json.null := by
  simp [historyEntry, mkObject]

theorem lastFifty_mem (l : List Json) (x : Json) (h : x ∈ lastFifty l) : x ∈ l :=
  List.mem_of_mem_drop h

theorem loadConfig_no_element (coerce : Coerce) (w : Widget) (rnd : Nat → Nat) :
    (loadConfig coerce w none rnd).messages = w.messages ∧
    (loadConfig coerce w none rnd).storage = w.storage := by
  unfold loadConfig
  simp only
  split_ifs <;> exact ⟨rfl, rfl⟩

/-- C10: the array `saveToSessionStorage` writes is read back unchanged by a
fresh widget: `loadSessionHistory` parses exactly the entries written, in
order, the new entry with its question, answer, timestamp and interaction id;
`init` renders one user turn and one bot turn per entry in that order; and
loading leaves the storage as it was, so a further load reads the same. -/
theorem save_load_round_trip (coerce : Coerce) (w : Widget) (q : String) (r i : Option Json)
    (now : String) (xs : List Json) (input : Option String) (rnd : Nat → Nat)
    (hget : w.storage.getThrows = false) (hset : w.storage.setThrows = false)
    (hread : readHistory w.storage = .ok (.arr xs)) (hitems : ∀ x ∈ xs, x ≠ Json.null) :
    readHistory (saveToSessionStorage w q r i now).storage =
      .ok (.arr (lastFifty (xs ++ [historyEntry q r i now]))) ∧
    (prop (historyEntry q r i now) "pregunta" = some (.str q) ∧
      prop (historyEntry q r i now) "respuesta" = r ∧
      prop (historyEntry q r i now) "timestamp" = some (.str now) ∧
      prop (historyEntry q r i now) "interaction_id" = i) ∧
    (init coerce (create input (some initialMessages) (saveToSessionStorage w q r i now).storage)
      none rnd).messages = some (renderEntries (lastFifty (xs ++ [historyEntry q r i now]))) ∧
    (init coerce (create input (some initialMessages) (saveToSessionStorage w q r i now).storage)
      none rnd).storage = (saveToSessionStorage w q r i now).storage ∧
    (loadSessionHistory coerce (init coerce (create input (some initialMessages)
      (saveToSessionStorage w q r i now).storage) none rnd)).storage =
      (saveToSessionStorage w q r i now).storage := by
  have hsave := saveToSessionStorage_of_array w q r i now xs hset hread
  have hst : readHistory (saveToSessionStorage w q r i now).storage =
      .ok (.arr (lastFifty (xs ++ [historyEntry q r i now]))) := by
    rw [hsave]
    exact readHistory_of_item _ _ hget rfl
  have hnn : ∀ x ∈ lastFifty (xs ++ [historyEntry q r i now]), x ≠ Json.null := by
    intro x hx
    rcases List.mem_append.mp (lastFifty_mem _ x hx) with h | h
    · exact hitems x h
    · rw [List.mem_singleton.mp h]
      exact historyEntry_ne_null q r i now
  have hne : lastFifty (xs ++ [historyEntry q r i now]) ≠ [] := by
    rw [lastFifty_concat]
    simp
  have hcfg := loadConfig_no_element coerce
    (create input (some initialMessages) (saveToSessionStorage w q r i now).storage) rnd
  have hinit : (init coerce (create input (some initialMessages)
      (saveToSessionStorage w q r i now).storage) none rnd).storage =
      (saveToSessionStorage w q r i now).storage := by
    unfold init
    rw [loadSessionHistory_storage, hcfg.2]
    rfl
  refine ⟨hst, historyEntry_fields q r i now, ?_, hinit, ?_⟩
  · unfold init
    rw [loadSessionHistory_entries coerce _ initialMessages _ (by rw [hcfg.1]; rfl)
      (by rw [hcfg.2]; exact hst) hne hnn]
    simp [initialMessages, stripSuggestions, Node.isBotMessage, Node.isSuggestions,
      stripSuggestions_nil]
  · rw [loadSessionHistory_storage, hinit]

/-- A third exchange saved after two, then a fresh widget started on that store. -/
theorem save_load_round_trip_witness :
    (init (fun _ => .ok false) (create (some "") (some initialMessages)
      (saveToSessionStorage (recordAll (freshWidget "") sampleExchanges) "Gracias"
        (some (.str "De nada")) (some (.num 3)) "2024-05-01T10:02:00.000Z").storage)
      none (fun k => k)).messages =
      some (renderEntries (lastFifty (sampleExchanges.map Exchange.entry ++
        [historyEntry "Gracias" (some (.str "De nada")) (some (.num 3))
          "2024-05-01T10:02:00.000Z"]))) :=
  (save_load_round_trip (fun _ => .ok false) (recordAll (freshWidget "") sampleExchanges)
    "Gracias" (some (.str "De nada")) (some (.num 3)) "2024-05-01T10:02:00.000Z"
    (sampleExchanges.map Exchange.entry) (some "") (fun k => k) rfl rfl rfl
    (by simp [sampleExchanges, Exchange.entry, historyEntry, mkObject])).2.2.1

/-! ## A stored value that is missing or not an array -/

theorem nothingRendered_refl (m : Option (List Node)) : nothingRendered m m := by
  cases m with
  | none => trivial
  | some c => exact List.Sublist.refl c

theorem removeWelcome_nothingRendered (coerce : Coerce) (w w1 : Widget) (length : Option Json)
    (h : removeWelcome coerce w length = .ok w1) : nothingRendered w.messages w1.messages := by
  unfold removeWelcome at h
  cases hm : w.messages with
  | none =>
    simp only [hm] at h
    cases h
    rw [hm]
    trivial
  | some children =>
    simp only [hm] at h
    cases hgt : gtZero coerce length with
    | error e => simp [hgt] at h
    | ok b =>
      cases b
      · simp only [hgt] at h
        cases h
        rw [hm]
        exact List.Sublist.refl _
      · simp only [hgt] at h
        cases h
        exact (List.eraseP_sublist _).trans (List.eraseP_sublist _)

theorem displayHistory_not_array (coerce : Coerce) (w : Widget) (h : Json)
    (hna : h.isArray = false) :
    nothingRendered w.messages (displayHistory coerce w (some h)).1.messages := by
  unfold displayHistory
  simp only
  split_ifs
  · exact nothingRendered_refl _
  · exact nothingRendered_refl _
  · cases hr : removeWelcome coerce w (prop h "length") with
    | error e => exact nothingRendered_refl _
    | ok w1 =>
      have hsub := removeWelcome_nothingRendered coerce w w1 _ hr
      cases h <;> first | exact hsub | exact absurd hna (by simp [Json.isArray])

theorem loadSessionHistory_not_array (coerce : Coerce) (w : Widget)
    (hget : w.storage.getThrows = false) (hna : notAnArray w.storage.item = true) :
    nothingRendered w.messages (loadSessionHistory coerce w).messages ∧
    (w.storage.item = some .malformed → (loadSessionHistory coerce w).messages = w.messages) := by
  constructor
  · unfold loadSessionHistory
    cases hread : readHistory w.storage with
    | error e => exact nothingRendered_refl _
    | ok history =>
      have hna' : history.isArray = false := by
        simp only [readHistory, getItem, hget] at hread
        cases hitem : w.storage.item with
        | none => simp [hitem, notAnArray] at hna
        | some t =>
          cases t with
          | empty => simp [hitem, notAnArray] at hna
          | malformed => simp [hitem, orEmptyArray, jsonParse] at hread
          | json v =>
            simp [hitem, orEmptyArray, jsonParse] at hread
            rw [← hread]
            simpa [hitem, notAnArray] using hna
      have hd := displayHistory_not_array coerce w history hna'
      rcases hdh : displayHistory coerce w (some history) with ⟨w1, err⟩
      rw [hdh] at hd
      cases err <;> simpa [logError, hdh] using hd
  · intro hmal
    simp [loadSessionHistory, readHistory, getItem, hget, hmal, orEmptyArray, jsonParse, logError]

theorem saveToSessionStorage_not_array (w : Widget) (q : String) (r i : Option Json)
    (now : String) (hget : w.storage.getThrows = false)
    (hna : notAnArray w.storage.item = true) :
    saveToSessionStorage w q r i now = logError w "Error saving to session storage:" := by
  cases hitem : w.storage.item with
  | none => simp [hitem, notAnArray] at hna
  | some t =>
    cases t with
    | empty => simp [hitem, notAnArray] at hna
    | malformed =>
      simp [saveToSessionStorage, saveToSessionStorageTry, readHistory, getItem, hget, hitem,
        orEmptyArray, jsonParse]
    | json v =>
      cases v with
      | arr items => simp [hitem, notAnArray, Json.isArray] at hna
      | _ =>
        simp [saveToSessionStorage, saveToSessionStorageTry, readHistory, getItem, hget, hitem,
          orEmptyArray, jsonParse, pushAndTrim]

/-- C11 as stated fails: with a stored text that does not parse, the load
renders nothing, but the following save is abandoned in its `catch` and the
store still holds the malformed text, not a transcript of the one entry. -/
theorem malformed_history_is_kept :
    (loadSessionHistory (fun _ => .ok false)
      (create (some "") (some initialMessages) malformedStorage)).messages =
        some initialMessages ∧
    (saveToSessionStorage (loadSessionHistory (fun _ => .ok false)
      (create (some "") (some initialMessages) malformedStorage))
      "Hola" (some (.str "Buenas")) (some (.num 1)) "2024-05-01T10:00:00.000Z").storage.item =
        some .malformed ∧
    readHistory (saveToSessionStorage (loadSessionHistory (fun _ => .ok false)
      (create (some "") (some initialMessages) malformedStorage))
      "Hola" (some (.str "Buenas")) (some (.num 1)) "2024-05-01T10:00:00.000Z").storage ≠
        .ok (.arr [historyEntry "Hola" (some (.str "Buenas")) (some (.num 1))
          "2024-05-01T10:00:00.000Z"]) :=
  ⟨rfl, rfl, by
    intro h
    have h2 : (Except.error JsErr.parseError : Except JsErr Json) = .ok (.arr
        [historyEntry "Hola" (some (.str "Buenas")) (some (.num 1))
          "2024-05-01T10:00:00.000Z"]) := h
    cases h2⟩

/-- C11, amended: no stored value makes the load or the save raise an error.
For a missing entry or the empty string the widget behaves as on an empty
transcript: the load changes nothing and a following save leaves the store
holding exactly the one new entry.  For a text that does not parse, or that
parses to something other than an array, the load appends nothing to the
messages, and a following save is abandoned: it logs the error and leaves the
store as it was. -/
theorem missing_or_malformed_history (coerce : Coerce) (w : Widget) (q : String)
    (r i : Option Json) (now : String) (hget : w.storage.getThrows = false) :
    ((w.storage.item = none ∨ w.storage.item = some .empty) →
      loadSessionHistory coerce w = w ∧
      (w.storage.setThrows = false →
        (saveToSessionStorage (loadSessionHistory coerce w) q r i now).storage.item =
          some (.json (.arr [historyEntry q r i now])))) ∧
    (notAnArray w.storage.item = true →
      nothingRendered w.messages (loadSessionHistory coerce w).messages ∧
      (w.storage.item = some .malformed → (loadSessionHistory coerce w).messages = w.messages) ∧
      saveToSessionStorage (loadSessionHistory coerce w) q r i now =
        logError (loadSessionHistory coerce w) "Error saving to session storage:" ∧
      (saveToSessionStorage (loadSessionHistory coerce w) q r i now).storage = w.storage) := by
  have hst := loadSessionHistory_storage coerce w
  constructor
  · intro hempty
    have hread : readHistory w.storage = .ok (.arr []) :=
      readHistory_of_empty _ hget (by rcases hempty with h | h <;> simp [h])
    have hload : loadSessionHistory coerce w = w := by
      simp [loadSessionHistory, hread, displayHistory, truthy, prop, isZero]
    refine ⟨hload, fun hset => ?_⟩
    rw [hload, saveToSessionStorage_of_array w q r i now [] hset hread]
    simp [lastFifty]
  · intro hna
    have hload := loadSessionHistory_not_array coerce w hget hna
    have hsave := saveToSessionStorage_not_array (loadSessionHistory coerce w) q r i now
      (by rw [hst]; exact hget) (by rw [hst]; exact hna)
    refine ⟨hload.1, hload.2, hsave, ?_⟩
    rw [hsave]
    exact hst

/-- A store holding the JSON object `{}`: the load renders nothing and the
save leaves the store as it was. -/
theorem missing_or_malformed_history_witness :
    ((create (some "") (some initialMessages)
        { emptyStorage with item := some (.json (.obj [])) }).storage.getThrows = false ∧
      notAnArray (create (some "") (some initialMessages)
        { emptyStorage with item := some (.json (.obj [])) }).storage.item = true) ∧
    (saveToSessionStorage (loadSessionHistory (fun _ => .ok false)
      (create (some "") (some initialMessages)
        { emptyStorage with item := some (.json (.obj [])) }))
      "Hola" (some (.str "Buenas")) (some (.num 1)) "2024-05-01T10:00:00.000Z").storage =
      (create (some "") (some initialMessages)
        { emptyStorage with item := some (.json (.obj [])) }).storage :=
  ⟨⟨rfl, rfl⟩,
   ((missing_or_malformed_history (fun _ => .ok false)
      (create (some "") (some initialMessages)
        { emptyStorage with item := some (.json (.obj [])) })
      "Hola" (some (.str "Buenas")) (some (.num 1)) "2024-05-01T10:00:00.000Z" rfl).2 rfl).2.2.2⟩

/-! ## A storage that throws -/

theorem saveToSessionStorage_cases (w : Widget) (q : String) (r i : Option Json) (now : String) :
    (∃ st, saveToSessionStorage w q r i now = { w with storage := st }) ∨
    saveToSessionStorage w q r i now = logError w "Error saving to session storage:" := by
  unfold saveToSessionStorage
  cases saveToSessionStorageTry w.storage (historyEntry q r i now) with
  | error e => exact Or.inr rfl
  | ok st => exact Or.inl ⟨st, rfl⟩

theorem saveToSessionStorage_of_throw (w : Widget) (q : String) (r i : Option Json)
    (now : String) (h : w.storage.getThrows = true ∨ w.storage.setThrows = true) :
    saveToSessionStorage w q r i now = logError w "Error saving to session storage:" := by
  cases hread : readHistory w.storage with
  | error e => simp [saveToSessionStorage, saveToSessionStorageTry, hread]
  | ok history =>
    have hset : w.storage.setThrows = true := by
      rcases h with h | h
      · simp [readHistory, getItem, h] at hread
      · exact h
    cases hpush : pushAndTrim history (historyEntry q r i now) with
    | error e => simp [saveToSessionStorage, saveToSessionStorageTry, hread, hpush]
    | ok trimmed =>
      simp [saveToSessionStorage, saveToSessionStorageTry, hread, hpush, setItem, hset]

theorem sendMessage_of_success (w : Widget) (text now : String) (status : Nat)
    (body a i : Json) (hinput : w.input = some text) (hq : jsTrim text ≠ "")
    (hstatus : 200 ≤ status ∧ status ≤ 299)
    (hsuccess : prop body "success" = some (.bool true))
    (ha : prop body "respuesta" = some a) (hi : prop body "interaction_id" = some i) :
    sendMessage w (.response status (some body)) now =
      saveToSessionStorage
        { addMessage (callAPI (addMessage { w with input := some "" }
            (some (.str (jsTrim text))) .user none) "ask/"
            (mkObject [("pregunta", some (.str (jsTrim text))), ("session_id", w.sessionId)]))
            (some a) .bot (some i) with currentInteractionId := some i }
        (jsTrim text) (some a) (some i) now := by
  have hbegin := sendMessageBegin_of_question w text hinput hq
  simp [sendMessage, hbegin, sendMessageResume, sendMessageTry, callAPIResult, hstatus,
    getProp_of_prop body "success" _ hsuccess, truthy, ha, hi]

theorem clearConversation_of_throw (w : Widget) (rnd : Nat → Nat) (page : Page)
    (hremove : w.storage.removeThrows = true) :
    (clearConversation w rnd page).storage = w.storage ∧
    (clearConversation w rnd page).console =
      w.console ++ ["Error clearing session storage:"] ++ csrfLog page := by
  cases hm : w.messages <;>
    simp [clearConversation, showTemporaryMessage, clearServerHistory, getCsrfToken_state,
      logError, removeItem,
      hm, hremove]

/-- C12: whatever the storage does, the failure is caught where it occurs.  A
`sendMessage` whose request succeeds appends the user turn and the bot answer
and records the interaction id also when `getItem` or `setItem` throws; the
write is then abandoned with one logged line.  `saveToSessionStorage` and
`loadSessionHistory` on a throwing storage log and return the state
otherwise unchanged, and `clearConversation` on a throwing `removeItem` logs
that failure (followed by the line of `getCsrfToken`, when its lookup in
`#chatbot-data` fails), still resets the messages and still regenerates the
identifier. -/
theorem storage_failure_is_swallowed (coerce : Coerce) (w : Widget) (text now : String)
    (status : Nat) (body a i : Json) (rnd : Nat → Nat) (page : Page)
    (hinput : w.input = some text) (hq : jsTrim text ≠ "")
    (hstatus : 200 ≤ status ∧ status ≤ 299)
    (hsuccess : prop body "success" = some (.bool true))
    (ha : prop body "respuesta" = some a) (hi : prop body "interaction_id" = some i) :
    (sendMessage w (.response status (some body)) now).messages =
      w.messages.map (fun c => afterTurns c (some (.str (jsTrim text))) (some a)
        (if truthy (some i) = true then some i else none)) ∧
    (sendMessage w (.response status (some body)) now).currentInteractionId = some i ∧
    ((w.storage.getThrows = true ∨ w.storage.setThrows = true) →
      (sendMessage w (.response status (some body)) now).storage = w.storage ∧
      (sendMessage w (.response status (some body)) now).console =
        w.console ++ ["Error saving to session storage:"] ∧
      saveToSessionStorage w (jsTrim text) (some a) (some i) now =
        logError w "Error saving to session storage:") ∧
    (w.storage.getThrows = true →
      loadSessionHistory coerce w = logError w "Error loading session history:") ∧
    (w.storage.removeThrows = true →
      (clearConversation w rnd page).storage = w.storage ∧
      (clearConversation w rnd page).console =
        w.console ++ ["Error clearing session storage:"] ++ csrfLog page ∧
      (clearConversation w rnd page).messages =
        w.messages.map (fun _ => initialMessages ++ [clearedNotice]) ∧
      (clearConversation w rnd page).sessionId = some (.str (generateSessionId rnd))) := by
  have hsend := sendMessage_of_success w text now status body a i hinput hq hstatus hsuccess ha hi
  have hmsg : ({ addMessage (callAPI (addMessage { w with input := some "" }
            (some (.str (jsTrim text))) .user none) "ask/"
            (mkObject [("pregunta", some (.str (jsTrim text))), ("session_id", w.sessionId)]))
            (some a) .bot (some i) with currentInteractionId := some i } : Widget).messages =
      w.messages.map (fun c => afterTurns c (some (.str (jsTrim text))) (some a)
        (if truthy (some i) = true then some i else none)) := by
    simp only [addMessage_bot_messages, callAPI, addMessage_user_messages]
    cases w.messages <;> simp [afterTurns]
  refine ⟨?_, ?_, ?_, ?_, ?_⟩
  · rw [hsend]
    rcases saveToSessionStorage_cases _ (jsTrim text) (some a) (some i) now with ⟨st, h⟩ | h
    · rw [h]; exact hmsg
    · rw [h]; exact hmsg
  · rw [hsend]
    rcases saveToSessionStorage_cases _ (jsTrim text) (some a) (some i) now with ⟨st, h⟩ | h
    · rw [h]
    · rw [h]; rfl
  · intro hthrow
    have hfail := saveToSessionStorage_of_throw
      { addMessage (callAPI (addMessage { w with input := some "" }
            (some (.str (jsTrim text))) .user none) "ask/"
            (mkObject [("pregunta", some (.str (jsTrim text))), ("session_id", w.sessionId)]))
            (some a) .bot (some i) with currentInteractionId := some i }
      (jsTrim text) (some a) (some i) now
      (by simpa [addMessage_fields, callAPI] using hthrow)
    rw [hsend, hfail]
    refine ⟨?_, ?_, saveToSessionStorage_of_throw w _ _ _ _ hthrow⟩
    · simp [logError, addMessage_fields, callAPI]
    · simp [logError, addMessage_fields, callAPI]
  · intro hget
    simp [loadSessionHistory, readHistory, getItem, hget]
  · intro hremove
    exact ⟨(clearConversation_of_throw w rnd page hremove).1, (clearConversation_of_throw w rnd page hremove).2,
      clearConversation_messages w rnd page, sessionId_after_clear w rnd page⟩

/-- The quota is exceeded (`setItem` throws) while "Hola" is answered; and a
conversation is cleared while `removeItem` throws, on a page whose config text
does not parse. -/
theorem storage_failure_is_swallowed_witness :
    (sendMessage { freshWidget "Hola" with storage := { emptyStorage with setThrows := true } }
      (.response 200 (some (.obj [("success", .bool true),
        ("respuesta", .str "Hola, ¿en qué ayudo?"), ("interaction_id", .num 42)])))
      "2024-05-01T10:00:00.000Z").messages =
      some [Node.welcome, Node.message (some (.str "Hola")) .user none,
        Node.message (some (.str "Hola, ¿en qué ayudo?")) .bot (some (.num 42))] ∧
    (sendMessage { freshWidget "Hola" with storage := { emptyStorage with setThrows := true } }
      (.response 200 (some (.obj [("success", .bool true),
        ("respuesta", .str "Hola, ¿en qué ayudo?"), ("interaction_id", .num 42)])))
      "2024-05-01T10:00:00.000Z").console = ["Error saving to session storage:"] ∧
    (clearConversation
      { freshWidget "Hola" with storage := { emptyStorage with removeThrows := true } }
      (fun k => k) unparsedConfigPage).console =
      ["Error clearing session storage:", "Error getting CSRF token from config:"] :=
  ⟨(storage_failure_is_swallowed (fun _ => .ok false)
      { freshWidget "Hola" with storage := { emptyStorage with setThrows := true } } "Hola"
      "2024-05-01T10:00:00.000Z" 200 (.obj [("success", .bool true),
        ("respuesta", .str "Hola, ¿en qué ayudo?"), ("interaction_id", .num 42)])
      (.str "Hola, ¿en qué ayudo?") (.num 42) (fun k => k) emptyPage rfl (by decide) (by decide)
      rfl rfl rfl).1,
   ((storage_failure_is_swallowed (fun _ => .ok false)
      { freshWidget "Hola" with storage := { emptyStorage with setThrows := true } } "Hola"
      "2024-05-01T10:00:00.000Z" 200 (.obj [("success", .bool true),
        ("respuesta", .str "Hola, ¿en qué ayudo?"), ("interaction_id", .num 42)])
      (.str "Hola, ¿en qué ayudo?") (.num 42) (fun k => k) emptyPage rfl (by decide) (by decide)
      rfl rfl rfl).2.2.1 (Or.inr rfl)).2.1,
   ((storage_failure_is_swallowed (fun _ => .ok false)
      { freshWidget "Hola" with storage := { emptyStorage with removeThrows := true } } "Hola"
      "2024-05-01T10:00:00.000Z" 200 (.obj [("success", .bool true),
        ("respuesta", .str "Hola, ¿en qué ayudo?"), ("interaction_id", .num 42)])
      (.str "Hola, ¿en qué ayudo?") (.num 42) (fun k => k) unparsedConfigPage rfl (by decide)
      (by decide) rfl rfl rfl).2.2.2.2 rfl).2.1⟩

/-! ## Feedback -/

/-- C13 as stated fails: when the `feedback/` request is answered with status
500, or is rejected, no button of the message is disabled or marked. -/
theorem handleFeedback_failure_leaves_buttons :
    (handleFeedback sampleParseInt (freshWidget "") sampleBlock (.response 500 none)).2.buttons.map
      (fun b => (b.disabled, b.selected)) = [(false, false), (false, false)] ∧
    (handleFeedback sampleParseInt (freshWidget "") sampleBlock .rejected).2.buttons.map
      (fun b => (b.disabled, b.selected)) = [(false, false), (false, false)] ∧
    (handleFeedback sampleParseInt (freshWidget "") sampleBlock (.response 500 none)).1.console =
      ["Error sending feedback:"] :=
  ⟨rfl, rfl, rfl⟩

/-- C13, amended: for every feedback button and every outcome of the
`feedback/` request, `handleFeedback` sends exactly one request and catches
every failure.  The buttons of the message end up disabled and marked exactly
in the outcomes where `callAPI` returns (a 2xx status with a body that parses);
on a rejection, a status outside 2xx or an unparseable body they are left as
they were and the error is logged. -/
theorem handleFeedback_marks_on_success (parseInt : ParseInt) (w : Widget)
    (block : FeedbackBlock) (outcome : FetchOutcome) :
    (handleFeedback parseInt w block outcome).1.requests = w.requests ++
      [{ base := w.apiBase, endpoint := "feedback/",
         body := .obj [("interaction_id", parseInt block.button.interactionId),
           ("fue_util", .bool (block.button.useful == some "true"))] }] ∧
    (∀ v, callAPIResult outcome = .ok v →
      (∀ b ∈ (handleFeedback parseInt w block outcome).2.buttons,
        b.disabled = true ∧ b.selected = true) ∧
      (handleFeedback parseInt w block outcome).2.button.text =
        (if (block.button.useful == some "true") = true then "👍 ¡Gracias!"
         else "👎 Gracias por tu feedback") ∧
      (handleFeedback parseInt w block outcome).1.console = w.console) ∧
    (∀ e, callAPIResult outcome = .error e →
      (handleFeedback parseInt w block outcome).2 = block ∧
      (handleFeedback parseInt w block outcome).1.console =
        w.console ++ ["Error sending feedback:"]) ∧
    ((∀ status body, outcome = .response status body → ¬ (200 ≤ status ∧ status ≤ 299)) →
      (handleFeedback parseInt w block outcome).2 = block) := by
  have herr : ∀ e, callAPIResult outcome = .error e →
      (handleFeedback parseInt w block outcome).2 = block ∧
      (handleFeedback parseInt w block outcome).1.console =
        w.console ++ ["Error sending feedback:"] := by
    intro e he
    simp [handleFeedback, handleFeedbackBegin, handleFeedbackResume, he, logError, callAPI]
  refine ⟨?_, ?_, herr, ?_⟩
  · cases hres : callAPIResult outcome <;>
      simp [handleFeedback, handleFeedbackBegin, handleFeedbackResume, hres, logError, callAPI,
        mkObject]
  · intro v hv
    refine ⟨?_, ?_, ?_⟩
    · intro b hb
      simp only [handleFeedback, handleFeedbackBegin, handleFeedbackResume, hv,
        FeedbackBlock.buttons, List.mem_append, List.mem_map, List.mem_singleton] at hb
      rcases hb with (⟨x, _, hx⟩ | hx) | ⟨x, _, hx⟩
      · rw [← hx]; exact ⟨rfl, rfl⟩
      · rw [hx]; exact ⟨rfl, rfl⟩
      · rw [← hx]; exact ⟨rfl, rfl⟩
    · simp [handleFeedback, handleFeedbackBegin, handleFeedbackResume, hv]
    · simp [handleFeedback, handleFeedbackBegin, handleFeedbackResume, hv, callAPI]
  · intro hnot
    cases outcome with
    | rejected => exact (herr _ rfl).1
    | response status body =>
      exact (herr (.httpError status) (by simp [callAPIResult, hnot status body rfl])).1

/-- The request is answered with status 200 and a JSON body: both buttons of
the sample block end up disabled. -/
theorem handleFeedback_marks_on_success_witness :
    callAPIResult (.response 200 (some (.obj [("success", .bool true)]))) =
      .ok (.obj [("success", .bool true)]) ∧
    ∀ b ∈ (handleFeedback sampleParseInt (freshWidget "") sampleBlock
        (.response 200 (some (.obj [("success", .bool true)])))).2.buttons,
      b.disabled = true ∧ b.selected = true :=
  ⟨rfl,
   ((handleFeedback_marks_on_success sampleParseInt (freshWidget "") sampleBlock
      (.response 200 (some (.obj [("success", .bool true)])))).2.1 _ rfl).1⟩

/-! ## The session identifier after `loadConfig` -/

theorem displayItems_sessionId (items : List Json) : ∀ w : Widget,
    (displayItems w items).1.sessionId = w.sessionId := by
  induction items with
  | nil => intro w; rfl
  | cons item rest ih =>
    intro w
    cases hg : getProp item "pregunta" with
    | error e => simp [displayItems, hg]
    | ok v => simp [displayItems, hg, ih, addMessage_fields]

theorem displayHistory_sessionId (coerce : Coerce) (w : Widget) (history : Option Json) :
    (displayHistory coerce w history).1.sessionId = w.sessionId := by
  unfold displayHistory
  cases history with
  | none => rfl
  | some h =>
    simp only
    split_ifs
    · rfl
    · rfl
    · cases hr : removeWelcome coerce w (prop h "length") with
      | error e => rfl
      | ok w1 =>
        have hw1 : w1.sessionId = w.sessionId := by
          unfold removeWelcome at hr
          cases hm : w.messages with
          | none => simp [hm] at hr; rw [← hr]
          | some children =>
            simp only [hm] at hr
            cases hgt : gtZero coerce (prop h "length") with
            | error e => simp [hgt] at hr
            | ok b => cases b <;> simp [hgt] at hr <;> rw [← hr]
        cases h <;> simp [displayItems_sessionId, hw1]

theorem loadConfigTry_sessionId (coerce : Coerce) (w : Widget) (cfg : Json)
    (hnull : cfg ≠ Json.null) :
    (loadConfigTry coerce w (.json cfg)).1.sessionId = prop cfg "session_id" := by
  have hget : getProp cfg "session_id" = .ok (prop cfg "session_id") := by
    cases cfg <;> first | rfl | exact absurd rfl hnull
  simp only [loadConfigTry, jsonParse, hget]
  cases hh : prop cfg "history" with
  | none => rfl
  | some history =>
    simp only
    split_ifs
    · rfl
    · cases hgt : gtZero coerce (prop history "length") with
      | error e => rfl
      | ok b =>
        cases b
        · rfl
        · simp [displayHistory_sessionId]

theorem loadConfigTry_of_unusable (coerce : Coerce) (w : Widget) (text : Text)
    (h : text = .malformed ∨ text = .empty ∨ text = .json .null) :
    (loadConfigTry coerce w text).1 = w := by
  rcases h with h | h | h <;> rw [h] <;> rfl

theorem generateSessionId_truthy (rnd : Nat → Nat) :
    truthy (some (.str (generateSessionId rnd))) = true := by
  have h : generateSessionId rnd ≠ "" := by
    intro h
    have := congrArg String.data h
    rw [generateSessionId_data] at this
    simp at this
  simp [truthy, h]

theorem sessionId_after_loadConfig (coerce : Coerce) (w : Widget) (configElement : Option Text)
    (rnd : Nat → Nat) (sid : Option Json)
    (h : ∀ text, configElement = some text → (loadConfigTry coerce w text).1.sessionId = sid)
    (hnone : configElement = none → w.sessionId = sid) :
    (loadConfig coerce w configElement rnd).sessionId =
      if truthy sid = false then some (.str (generateSessionId rnd)) else sid := by
  unfold loadConfig
  cases configElement with
  | none =>
    have := hnone rfl
    simp only
    split_ifs <;> simp_all
  | some text =>
    have := h text rfl
    rcases htry : loadConfigTry coerce w text with ⟨w1, err⟩
    rw [htry] at this
    cases err <;> simp only [logError] <;> split_ifs <;> simp_all

theorem loadConfig_generates (coerce : Coerce) (w : Widget) (configElement : Option Text)
    (rnd : Nat → Nat) (hnew : truthy w.sessionId = false)
    (h : configElement = none ∨ configElement = some .malformed ∨ configElement = some .empty ∨
      ∃ cfg, configElement = some (.json cfg) ∧ truthy (prop cfg "session_id") = false) :
    (loadConfig coerce w configElement rnd).sessionId = some (.str (generateSessionId rnd)) := by
  rcases h with h | h | h | ⟨cfg, h, hfalsy⟩
  · rw [sessionId_after_loadConfig coerce w configElement rnd w.sessionId
      (fun text ht => by rw [h] at ht; cases ht) (fun _ => rfl), if_pos hnew]
  · rw [sessionId_after_loadConfig coerce w configElement rnd w.sessionId
      (fun text ht => by
        rw [h] at ht; cases ht
        rw [loadConfigTry_of_unusable coerce w _ (Or.inl rfl)])
      (fun _ => rfl), if_pos hnew]
  · rw [sessionId_after_loadConfig coerce w configElement rnd w.sessionId
      (fun text ht => by
        rw [h] at ht; cases ht
        rw [loadConfigTry_of_unusable coerce w _ (Or.inr (Or.inl rfl))])
      (fun _ => rfl), if_pos hnew]
  · by_cases hnull : cfg = Json.null
    · rw [sessionId_after_loadConfig coerce w configElement rnd w.sessionId
        (fun text ht => by
          rw [h, hnull] at ht; cases ht
          rw [loadConfigTry_of_unusable coerce w _ (Or.inr (Or.inr rfl))])
        (fun hn => by simp [h] at hn), if_pos hnew]
    · rw [sessionId_after_loadConfig coerce w configElement rnd (prop cfg "session_id")
        (fun text ht => by
          rw [h] at ht; cases ht
          exact loadConfigTry_sessionId coerce w cfg hnull)
        (fun hn => by simp [h] at hn), if_pos hfalsy]

theorem loadConfig_adopts (coerce : Coerce) (w : Widget) (rnd : Nat → Nat) (cfg sid : Json)
    (hsid : prop cfg "session_id" = some sid) (htruthy : truthy (some sid) = true) :
    (loadConfig coerce w (some (.json cfg)) rnd).sessionId = some sid := by
  have hnull : cfg ≠ Json.null := by
    intro h; rw [h] at hsid; simp [prop] at hsid
  rw [sessionId_after_loadConfig coerce w (some (.json cfg)) rnd (some sid)
    (fun text ht => by
      cases ht
      rw [loadConfigTry_sessionId coerce w cfg hnull, hsid])
    (fun hn => by cases hn), if_neg (by simp [htruthy])]

/-- C14: on a widget whose identifier is not yet set, as the constructor
leaves it, `loadConfig` ends with a truthy session identifier: the
`session_id` of the host configuration when that is present and not empty,
and otherwise (no config element, a config text that does not parse, a missing
or empty `session_id`) the identifier `generateSessionId` builds. -/
theorem loadConfig_sessionId (coerce : Coerce) (w : Widget) (configElement : Option Text)
    (rnd : Nat → Nat) (hnew : truthy w.sessionId = false) :
    truthy (loadConfig coerce w configElement rnd).sessionId = true ∧
    (∀ cfg sid, configElement = some (.json cfg) → prop cfg "session_id" = some sid →
      truthy (some sid) = true →
      (loadConfig coerce w configElement rnd).sessionId = some sid) ∧
    ((configElement = none ∨ configElement = some .malformed ∨ configElement = some .empty ∨
        ∃ cfg, configElement = some (.json cfg) ∧ truthy (prop cfg "session_id") = false) →
      (loadConfig coerce w configElement rnd).sessionId =
        some (.str (generateSessionId rnd))) := by
  have hadopt : ∀ cfg sid, configElement = some (.json cfg) → prop cfg "session_id" = some sid →
      truthy (some sid) = true →
      (loadConfig coerce w configElement rnd).sessionId = some sid := by
    intro cfg sid hc hsid htruthy
    rw [hc]
    exact loadConfig_adopts coerce w rnd cfg sid hsid htruthy
  refine ⟨?_, hadopt, loadConfig_generates coerce w configElement rnd hnew⟩
  have hgen := loadConfig_generates coerce w configElement rnd hnew
  cases hc : configElement with
  | none => rw [← hc, hgen (Or.inl hc)]; exact generateSessionId_truthy rnd
  | some text =>
    cases text with
    | empty => rw [← hc, hgen (Or.inr (Or.inr (Or.inl hc)))]; exact generateSessionId_truthy rnd
    | malformed => rw [← hc, hgen (Or.inr (Or.inl hc))]; exact generateSessionId_truthy rnd
    | json cfg =>
      cases hs : truthy (prop cfg "session_id") with
      | false =>
        rw [← hc, hgen (Or.inr (Or.inr (Or.inr ⟨cfg, hc, hs⟩)))]
        exact generateSessionId_truthy rnd
      | true =>
        cases hp : prop cfg "session_id" with
        | none => rw [hp] at hs; simp [truthy] at hs
        | some sid =>
          rw [hp] at hs
          rw [← hc, hadopt cfg sid hc hp hs]
          exact hs

/-- The sample configuration supplies "s-1"; without a config element the
identifier is generated. -/
theorem loadConfig_sessionId_witness :
    truthy (freshWidget "").sessionId = false ∧
    (loadConfig (fun _ => .ok false) (freshWidget "") (some (.json sampleConfig))
      (fun k => k)).sessionId = some (.str "s-1") :=
  ⟨rfl,
   (loadConfig_sessionId (fun _ => .ok false) (freshWidget "") (some (.json sampleConfig))
      (fun k => k) rfl).2.1 sampleConfig (.str "s-1") rfl rfl rfl⟩

/-! ## The clear-history request -/

/-- C15: the `clear-history/` request `clearConversation` sends carries the
session identifier held before the clear; the request does not depend on the
random values the new identifier is generated from, and the identifier is
replaced afterwards. -/
theorem clearConversation_request (w : Widget) (rnd : Nat → Nat) (page : Page) :
    (clearConversation w rnd page).requests = w.requests ++
      [{ base := w.apiBase, endpoint := "clear-history/",
         body := mkObject [("session_id", w.sessionId)] }] ∧
    prop (mkObject [("session_id", w.sessionId)]) "session_id" = w.sessionId ∧
    (∀ rnd0 : Nat → Nat, (clearConversation w rnd0 page).requests = (clearConversation w rnd page).requests) ∧
    (clearConversation w rnd page).sessionId = some (.str (generateSessionId rnd)) := by
  have hreq : ∀ r : Nat → Nat, (clearConversation w r page).requests = w.requests ++
      [{ base := w.apiBase, endpoint := "clear-history/",
         body := mkObject [("session_id", w.sessionId)] }] := by
    intro r
    cases hm : w.messages <;> cases hr : w.storage.removeThrows <;>
      simp [clearConversation, showTemporaryMessage, clearServerHistory, getCsrfToken_state,
      logError, removeItem,
        hm, hr]
  refine ⟨hreq rnd, ?_, fun r => by rw [hreq r, hreq rnd], sessionId_after_clear w rnd page⟩
  cases w.sessionId <;> simp [mkObject, prop, lookup]

end ChatbotWidget
